import Mathlib

/-!
Verification development for the ChessBot Arena repository.

The repository contains two parallel implementations of the same product:
the class-based controller in src/lib/game_manager.py (namespace GM below)
and the module-level web/serial variant in src/main.py (namespace Web below).
Chess rules, board representation and engine search are delegated to the
external python-chess library and to a Stockfish subprocess; following the
specification, which places them out of scope, they are modelled here as an
abstract collaborator interface (Rules, Eng) over which the controller code
is parameterized.  Every controller-side definition below is a direct
translation of the corresponding Python function.
-/

namespace ChessBotArena

/-- Piece kinds used by python-chess piece objects. -/
inductive PieceType where
  | pawn
  | knight
  | bishop
  | rook
  | queen
  | king
deriving DecidableEq, Repr

/-- A chess piece as exposed by python-chess: a kind and a color flag
(white = true corresponds to piece.color == chess.WHITE). -/
structure Piece where
  ptype : PieceType
  white : Bool
deriving DecidableEq, Repr

/-- Engine analysis score: either a forced-mate distance or a centipawn value
(mirrors python-chess PovScore after .white()). -/
inductive Score where
  | mate (n : Int)
  | cp (n : Int)
deriving DecidableEq, Repr

/-- The StrategyEngine collaborator (Stockfish): best-move search and static
analysis.  play b d models engine.play(b, Limit(depth=d)).move; analyse models
engine.analyse(b, Limit(depth=d))["score"].white(). -/
structure Eng (P M : Type) where
  play : P → Int → Option M
  analyse : P → Int → Score

/-- The RulesEngine collaborator (python-chess board operations), abstracted
as pure functions on an opaque position type P with move type M.
moveFalsy models Python truthiness of a chess.Move (the null move is falsy). -/
structure Rules (P M : Type) where
  startPos : P
  startFen : String
  legalMoves : P → List M
  push : P → M → P
  turnWhite : P → Bool
  isCheckmate : P → Bool
  isStalemate : P → Bool
  isInsufficientMaterial : P → Bool
  isFiftyMoves : P → Bool
  isRepetition : P → Bool
  isCheck : P → Bool
  sanOf : P → M → String
  uciOf : M → String
  fenOf : P → String
  fromUci : String → Option M
  parseSan : P → String → Option M
  parseSquare : String → Option Nat
  toSquare : M → Nat
  fromSquare : M → Nat
  pieceAt : P → Nat → Option Piece
  moveFalsy : M → Bool

/-- chess.square_rank: rank index of a 0..63 square. -/
def square_rank (sq : Nat) : Nat := sq / 8

/-- A row persisted by DatabaseManager.save_game. -/
structure DbRec where
  white : String
  black : String
  result : String
  pgn : String
deriving DecidableEq, Repr

/-- Sixteen blanks, the padding string used by the LCD update helpers. -/
def blank16 : String := "                "

/-- Python str.strip(): drop leading and trailing whitespace.  Defined
structurally on the character list so that it evaluates inside the kernel. -/
def stripStr (s : String) : String :=
  String.mk (((s.data.dropWhile Char.isWhitespace).reverse.dropWhile Char.isWhitespace).reverse)

/-- Python str.lower(), structurally on the character list. -/
def lowerStr (s : String) : String :=
  String.mk (s.data.map Char.toLower)

/-- Python str.upper(), structurally on the character list. -/
def upperStr (s : String) : String :=
  String.mk (s.data.map Char.toUpper)

/-- Python slicing s[:n], structurally on the character list. -/
def takeStr (s : String) (n : Nat) : String :=
  String.mk (s.data.take n)

/-- Python slicing s[n:], structurally on the character list. -/
def dropStr (s : String) (n : Nat) : String :=
  String.mk (s.data.drop n)

/-- Python int two-digit zero padding (format spec 02d) for the LCD rows. -/
def pad2 (n : Int) : String :=
  if 0 ≤ n ∧ n < 10 then ("0") ++ toString n else toString n

namespace GM

/-- One entry of GameManager.state["history"]. -/
structure Hist where
  move : String
  san : String
  quality : String
  eval : Int
deriving DecidableEq, Repr

/-- The mutable fields of a GameManager instance together with its state dict.
hint_move and winner are dict keys added dynamically by _hint_task and resign;
they are modelled as Option fields that start out none. -/
structure GMState (P : Type) where
  board : P
  depth : Int
  timer_white : Int
  timer_black : Int
  increment : Int
  player_color : String
  game_id : Nat
  status : String
  turn : String
  fen : String
  last_move : Option String
  check : Bool
  eval_val : Int
  eval_label : Option String
  history : List Hist
  hint_move : Option String
  winner : Option String
  lcd0 : String
  lcd1 : String
deriving DecidableEq, Repr

variable {P M : Type}

/-- GameManager.__init__: the session constructed once at process start. -/
def initState (R : Rules P M) : GMState P :=
  { board := R.startPos
    depth := 5
    timer_white := 600
    timer_black := 600
    increment := 0
    player_color := ("white")
    game_id := 0
    status := ("waiting")
    turn := ("white")
    fen := R.startFen
    last_move := none
    check := false
    eval_val := 0
    eval_label := none
    history := []
    hint_move := none
    winner := none
    lcd0 := ("ChessBot Arena")
    lcd1 := ("Ready...") }

/-- GameManager._update_lcd restricted to row 0: pad with blanks, keep 16. -/
def update_lcd0 (s : GMState P) (row0 : String) : GMState P :=
  { s with lcd0 := takeStr (row0 ++ blank16) 16 }

/-- GameManager._update_lcd restricted to row 1. -/
def update_lcd1 (s : GMState P) (row1 : String) : GMState P :=
  { s with lcd1 := takeStr (row1 ++ blank16) 16 }

/-- GameManager._classify_move: the move-quality thresholds of the core
variant (30 / 90 / 200). -/
def classify_move (delta : Int) : String :=
  if delta < 0 then ("BRILLIANT")
  else if delta ≤ 30 then ("GOOD")
  else if delta ≤ 90 then ("INAC")
  else if delta ≤ 200 then ("MISTAKE")
  else ("BLUNDER")

/-- GameManager._get_eval: 0 when the engine is unavailable, otherwise the
white-perspective score with mates mapped to plus or minus 10000. -/
def get_eval (eng : Option (Eng P M)) (b : P) (d : Int) : Int :=
  match eng with
  | none => 0
  | some e =>
    match e.analyse b d with
    | Score.mate n => if 0 < n then 10000 else -10000
    | Score.cp n => n

/-- GameManager._update_lcd_emoticon.  The source picks one of two strings per
label with random.choice; randomness only affects this cosmetic LCD text, so
the model fixes the first alternative. -/
def emoticon (label : String) : String :=
  if label = ("BRILLIANT") then ("(*^O^*) Super!! ")
  else if label = ("GOOD") then ("(^_^) Good!     ")
  else if label = ("INAC") then ("(O_O ) (_ _ )   ")
  else if label = ("MISTAKE") then ("(T_T) Mistake.. ")
  else if label = ("BLUNDER") then ("(X_X) Blunder!! ")
  else ("Analyzing...")

/-- GameManager._save_to_db: the record handed to DatabaseManager.save_game. -/
def save_rec (s : GMState P) (result : String) : DbRec :=
  { white := if s.player_color = ("white") then ("Player") else ("Stockfish")
    black := if s.player_color = ("white") then ("Stockfish") else ("Player")
    result := result
    pgn := String.intercalate (" ") (s.history.map fun h => h.san) }

/-- GameManager._sync_time: the TIME serial line. -/
def timeMsg (s : GMState P) : String :=
  ("TIME:") ++ toString s.timer_white ++ (",") ++ toString s.timer_black

/-- The priority key of GameManager.process_move.get_priority: piece value of
the moving piece, defaulting to 0 when no piece sits on the from-square. -/
def getPriority (R : Rules P M) (b : P) (m : M) : Nat :=
  match R.pieceAt b (R.fromSquare m) with
  | none => 0
  | some p =>
    match p.ptype with
    | PieceType.king => 6
    | PieceType.queen => 5
    | PieceType.rook => 4
    | PieceType.knight => 3
    | PieceType.bishop => 2
    | PieceType.pawn => 1

/-- Element 0 of a Python stable ascending sort by key f, i.e. the first
element attaining the minimal key (candidates.sort(key=...); candidates[0]).
Only a strictly smaller key displaces the current choice, so ties keep the
earlier element, exactly as a stable sort does. -/
def firstMinBy (f : α → Nat) : List α → Option α
  | [] => none
  | x :: xs => some (xs.foldl (fun b y => if f y < f b then y else b) x)

/-- The move-text resolution chain of GameManager.process_move: exact UCI on
the lowered text, then SAN on the original text, then — for two-character
texts naming a square — the sorted-first legal move to that square. -/
def resolveMove (R : Rules P M) (b : P) (str : String) : Option M :=
  match R.fromUci (lowerStr str) with
  | some m => some m
  | none =>
    match R.parseSan b str with
    | some m => some m
    | none =>
      if str.length = 2 then
        match R.parseSquare (lowerStr str) with
        | none => none
        | some sq =>
          firstMinBy (getPriority R b) ((R.legalMoves b).filter fun m => R.toSquare m = sq)
      else none

/-- The combined test of GameManager.process_move line 115: the resolved move
exists, is truthy (not the null move) and is legal; otherwise the move is
rejected.  Returns the accepted move, or none for the illegal branch. -/
def resolveLegal [DecidableEq M] (R : Rules P M) (b : P) (str : String) : Option M :=
  match resolveMove R b str with
  | none => none
  | some m => if R.moveFalsy m = true ∨ m ∉ R.legalMoves b then none else some m

/-- GameManager._make_move: evaluate before and after, push, classify from the
mover's perspective, append to history, notify hardware, apply the increment
and emit the TIME line.  Returns the new state and the serial lines sent. -/
def make_move (R : Rules P M) (eng : Option (Eng P M)) (s : GMState P) (m : M)
    (send_feedback : Bool) : GMState P × List String :=
  let cp_before := get_eval eng s.board s.depth
  let san := R.sanOf s.board m
  let board1 := R.push s.board m
  let cp_after := get_eval eng board1 s.depth
  let delta0 := cp_before - cp_after
  let delta := if R.turnWhite board1 then -delta0 else delta0
  let quality := classify_move delta
  let s1 : GMState P :=
    { s with
      board := board1
      fen := R.fenOf board1
      last_move := some (R.uciOf m)
      turn := if R.turnWhite board1 then ("white") else ("black")
      check := R.isCheck board1
      eval_val := cp_after
      eval_label := some quality
      history := s.history ++ [{ move := R.uciOf m, san := san, quality := quality, eval := cp_after }] }
  let s2 := if send_feedback then update_lcd0 s1 (emoticon quality) else s1
  let sent1 := if send_feedback then [("LAST:") ++ san, ("EVAL:") ++ quality] else []
  let s3 :=
    if 0 < s2.increment then
      if R.turnWhite board1 then { s2 with timer_black := s2.timer_black + s2.increment }
      else { s2 with timer_white := s2.timer_white + s2.increment }
    else s2
  (s3, sent1 ++ [timeMsg s3])

/-- GameManager._check_game_over: terminal-state detection after a commit.
Returns the new state, serial lines, persisted records and the boolean the
source returns. -/
def check_game_over (R : Rules P M) (s : GMState P) :
    GMState P × List String × List DbRec × Bool :=
  if R.isCheckmate s.board then
    let winner := if R.turnWhite s.board then ("Black") else ("White")
    let result := winner ++ (" Wins")
    let s1 := update_lcd1 (update_lcd0 { s with status := ("game_over") } (result ++ ("!")))
      (takeStr ("Checkmate") 16)
    (s1, [("CHECKMATE:") ++ upperStr winner], [save_rec s1 result], true)
  else if R.isStalemate s.board then
    let s1 := update_lcd1 (update_lcd0 { s with status := ("game_over") } (("Draw") ++ ("!")))
      (takeStr ("Stalemate") 16)
    (s1, [("STALEMATE")], [save_rec s1 ("Draw")], true)
  else if R.isInsufficientMaterial s.board then
    let s1 := update_lcd1 (update_lcd0 { s with status := ("game_over") } (("Draw") ++ ("!")))
      (takeStr ("Insufficient Material") 16)
    (s1, [("STALEMATE")], [save_rec s1 ("Draw")], true)
  else (s, [], [], false)

/-- The outcome of one GameManager.process_move call: result string, final
state, serial lines, persisted records, and the generation tag of the
asynchronous opponent-reply task it spawned, when it spawned one. -/
structure PMResult (P : Type) where
  outcome : String
  state : GMState P
  sent : List String
  saved : List DbRec
  spawned : Option Nat

/-- GameManager.process_move. -/
def process_move [DecidableEq M] (R : Rules P M) (eng : Option (Eng P M))
    (s : GMState P) (move_str : String) : PMResult P :=
  let str := stripStr move_str
  if s.status ≠ ("playing") then
    { outcome := ("not_playing"), state := s, sent := [], saved := [], spawned := none }
  else
    match resolveLegal R s.board str with
    | none =>
      { outcome := ("illegal"), state := update_lcd0 s ("Illegal Move!")
        sent := [("ILLEGAL")], saved := [], spawned := none }
    | some m =>
      let r1 := make_move R eng s m true
      let r2 := check_game_over R r1.1
      if r2.2.2.2 then
        { outcome := ("game_over"), state := r2.1, sent := r1.2 ++ r2.2.1
          saved := r2.2.2.1, spawned := none }
      else
        { outcome := ("ok"), state := r2.1, sent := r1.2 ++ r2.2.1
          saved := r2.2.2.1, spawned := some r2.1.game_id }

/-- GameManager.reset_game: reinitialize the session, bump the generation and,
when the human plays black, spawn an opponent-reply task tagged with the new
generation (returned as the second component). -/
def reset_game (R : Rules P M) (s : GMState P) (difficulty : Int) (timer_mins : Int)
    (increment_secs : Int) (player_color : String) : GMState P × Option Nat :=
  let s1 : GMState P :=
    { s with
      board := R.startPos
      depth := difficulty
      timer_white := timer_mins * 60
      timer_black := timer_mins * 60
      increment := increment_secs
      player_color := player_color
      game_id := s.game_id + 1
      status := ("playing")
      turn := ("white")
      fen := R.startFen
      last_move := none
      check := false
      eval_val := 0
      eval_label := none
      history := []
      lcd0 := ("Last: None")
      lcd1 := ("W") ++ pad2 timer_mins ++ (":00 B") ++ pad2 timer_mins ++ (":00") }
  (s1, if player_color = ("black") then some s1.game_id else none)

/-- GameManager._timeout: the timeout-loss transition taken by the clock loop. -/
def timeout_trans (s : GMState P) (winner : String) : GMState P × List String × List DbRec :=
  let s1 := update_lcd1 (update_lcd0 { s with status := ("game_over") } (winner ++ (" Wins!")))
    ("Time Expired")
  (s1, [("CHECKMATE:") ++ upperStr winner], [save_rec s1 (winner ++ (" Wins (Time)"))])

/-- The LCD clock row written by GameManager._timer_loop. -/
def timerRow (s : GMState P) : String :=
  ("W") ++ pad2 (Int.fdiv s.timer_white 60) ++ (":") ++ pad2 (Int.fmod s.timer_white 60)
    ++ (" B") ++ pad2 (Int.fdiv s.timer_black 60) ++ (":") ++ pad2 (Int.fmod s.timer_black 60)

/-- One iteration of GameManager._timer_loop: a no-op unless playing, then a
guarded one-second decrement of the active side's clock with the timeout
transition fired exactly when that clock reaches zero, then the LCD row and
TIME line updates. -/
def timer_tick (s : GMState P) : GMState P × List String × List DbRec :=
  if s.status ≠ ("playing") then (s, [], [])
  else
    let r1 :=
      if s.turn = ("white") ∧ 0 < s.timer_white then
        let s' := { s with timer_white := s.timer_white - 1 }
        if s'.timer_white = 0 then timeout_trans s' ("Black") else (s', [], [])
      else if s.turn = ("black") ∧ 0 < s.timer_black then
        let s' := { s with timer_black := s.timer_black - 1 }
        if s'.timer_black = 0 then timeout_trans s' ("White") else (s', [], [])
      else (s, [], [])
    let s2 := { r1.1 with lcd1 := timerRow r1.1 }
    (s2, r1.2.1 ++ [timeMsg s2], r1.2.2)

/-- First locked section of GameManager._ai_move_task: abort silently when the
generation tag is stale or the game is not running, otherwise show the
thinking banner.  gid is the generation captured at spawn time. -/
def ai_check1 (gid : Nat) (s : GMState P) : Option (GMState P) :=
  if s.game_id ≠ gid ∨ s.status ≠ ("playing") then none
  else some (update_lcd0 s ("Thinking..."))

/-- Second locked section of GameManager._ai_move_task: re-check the
generation tag and status, then commit the engine's reply through the same
pipeline as a human move. -/
def ai_commit [DecidableEq M] (R : Rules P M) (eng : Option (Eng P M)) (gid : Nat)
    (mv : Option M) (s : GMState P) : GMState P × List String × List DbRec :=
  if s.game_id ≠ gid ∨ s.status ≠ ("playing") then (s, [], [])
  else
    match mv with
    | none => (s, [], [])
    | some m =>
      let san := R.sanOf s.board m
      let s1 := update_lcd0 s (("Last: ") ++ san)
      let r2 := make_move R eng s1 m false
      let r3 := check_game_over R r2.1
      (r3.1, ((("BEST:") ++ san) :: r2.2) ++ r3.2.1, r3.2.2.1)

/-- GameManager._ai_move_task run without interference between its two locked
sections.  The unguarded self.engine.play call raises AttributeError when the
engine is unavailable; the error constructor carries the session state at the
moment the exception escapes (only the LCD banner was written by then). -/
def ai_move_task [DecidableEq M] (R : Rules P M) (eng : Option (Eng P M)) (gid : Nat)
    (s : GMState P) : Except (GMState P) (GMState P × List String × List DbRec) :=
  match ai_check1 gid s with
  | none => Except.ok (s, [], [])
  | some s1 =>
    match eng with
    | none => Except.error s1
    | some e => Except.ok (ai_commit R eng gid (e.play s1.board s1.depth) s1)

/-- First locked section of GameManager._hint_task: give up when no engine is
attached or the game is not running, otherwise snapshot the board. -/
def hint_phase1 (eng : Option (Eng P M)) (s : GMState P) : Option P :=
  match eng with
  | none => none
  | some _ => if s.status ≠ ("playing") then none else some s.board

/-- Completion of GameManager._hint_task, run against the session state at
completion time: the engine searches the snapshot and, when it returns a move,
the hint is recorded with no re-check of status or generation.  Exceptions
(including an engine that died) are swallowed by the try block, modelled by
the none branches. -/
def hint_phase2 (R : Rules P M) (eng : Option (Eng P M)) (bc : P) (s : GMState P) :
    GMState P × List String :=
  match eng with
  | none => (s, [])
  | some e =>
    match e.play bc s.depth with
    | none => (s, [])
    | some m =>
      let hint_san := R.sanOf bc m
      (update_lcd0 { s with hint_move := some hint_san } (("Hint: ") ++ hint_san),
        [("HINT:") ++ hint_san])

/-- GameManager.resign. -/
def resign (s : GMState P) : GMState P × List String × List DbRec :=
  if s.status ≠ ("playing") then (s, [], [])
  else
    let winner := if s.player_color = ("white") then ("Black") else ("White")
    let s1 := update_lcd1
      (update_lcd0 { s with status := ("resigned"), winner := some (lowerStr winner) }
        (winner ++ (" Wins!"))) ("Resignation")
    (s1, [("RESIGN")], [save_rec s1 (winner ++ (" Wins (Resign)"))])

/-- GameManager.draw. -/
def draw (s : GMState P) : GMState P × List String × List DbRec :=
  if s.status ≠ ("playing") then (s, [], [])
  else
    let s1 := update_lcd1 (update_lcd0 { s with status := ("draw") } ("Draw Agreed"))
      ("Game Over")
    (s1, [("DRAW")], [save_rec s1 ("Draw (Agreed)")])

/-- GameManager.set_difficulty. -/
def set_difficulty (s : GMState P) (d : Int) : GMState P :=
  { s with depth := d }

/-- States of the GameManager session reachable from process start through its
operations.  The generation tag of the asynchronous phases and the engine
reply are universally quantified, covering every interleaving of stale and
fresh background work.  The timer-minutes argument of a reset is taken
non-negative, matching the START command's timerMinutes field. -/
inductive Reach [DecidableEq M] (R : Rules P M) (eng : Option (Eng P M)) : GMState P → Prop where
  | init : Reach R eng (initState R)
  | reset (s : GMState P) (d mins inc : Int) (pc : String) : Reach R eng s → 0 ≤ mins →
      Reach R eng (reset_game R s d mins inc pc).1
  | move (s : GMState P) (str : String) : Reach R eng s →
      Reach R eng (process_move R eng s str).state
  | tick (s : GMState P) : Reach R eng s → Reach R eng (timer_tick s).1
  | aiPhase1 (s : GMState P) (gid : Nat) : Reach R eng s →
      Reach R eng ((ai_check1 gid s).getD s)
  | aiPhase2 (s : GMState P) (gid : Nat) (mv : Option M) : Reach R eng s →
      Reach R eng (ai_commit R eng gid mv s).1
  | hintPhase2 (s : GMState P) (bc : P) : Reach R eng s →
      Reach R eng (hint_phase2 R eng bc s).1
  | resignStep (s : GMState P) : Reach R eng s → Reach R eng (resign s).1
  | drawStep (s : GMState P) : Reach R eng s → Reach R eng (draw s).1
  | depthStep (s : GMState P) (d : Int) : Reach R eng s → Reach R eng (set_difficulty s d)

end GM

namespace Web

/-- One entry of state["move_history"] in main.py. -/
structure Hist where
  move : String
  eval_label : String
  cp_before : Int
  cp_after : Int
deriving DecidableEq, Repr

/-- The shared state dict of main.py together with the module globals board
and DEPTH that the same lock guards. -/
structure WebState (P : Type) where
  board : P
  depth : Int
  board_fen : String
  turn : String
  eval_label : Option String
  eval_cp : Int
  best_move : Option String
  last_move : Option String
  hint_move : Option String
  status : String
  winner : Option String
  move_history : List Hist
  timer_white : Int
  timer_black : Int
  increment : Int
  difficulty : Int
  player_color : String
  game_id : Nat
  lcd_row0 : String
  lcd_row1 : String
  thinking : Bool
deriving DecidableEq, Repr

variable {P M : Type}

/-- main.classify: the web variant's move-quality thresholds (20 / 50 / 100). -/
def classify (delta : Int) : String :=
  if delta < 0 then ("BRILLIANT")
  else if delta ≤ 20 then ("GOOD")
  else if delta ≤ 50 then ("INAC")
  else if delta ≤ 100 then ("MISTAKE")
  else ("BLUNDER")

/-- main.get_cp: 0 when the engine is unavailable, otherwise the
white-perspective score with mates mapped to plus or minus 10000. -/
def get_cp (eng : Option (Eng P M)) (b : P) (d : Int) : Int :=
  match eng with
  | none => 0
  | some e =>
    match e.analyse b d with
    | Score.mate n => if 0 < n then 10000 else -10000
    | Score.cp n => n

/-- main.update_lcd restricted to row 0. -/
def lcd0 (s : WebState P) (row0 : String) : WebState P :=
  { s with lcd_row0 := takeStr (row0 ++ blank16) 16 }

/-- main.update_lcd with both rows. -/
def lcd01 (s : WebState P) (row0 row1 : String) : WebState P :=
  { s with lcd_row0 := takeStr (row0 ++ blank16) 16, lcd_row1 := takeStr (row1 ++ blank16) 16 }

/-- main.format_timer: seconds rendered as MM:SS with Python floor division. -/
def format_timer (secs : Int) : String :=
  pad2 (Int.fdiv secs 60) ++ (":") ++ pad2 (Int.fmod secs 60)

/-- main.timer_lcd_row. -/
def timer_lcd_row (s : WebState P) : String :=
  ("W") ++ format_timer s.timer_white ++ ("  B") ++ format_timer s.timer_black

/-- The LCD emoticon table of main.process_move (a plain dict lookup with the
label itself as the default). -/
def webEmoticon (label : String) : String :=
  if label = ("BRILLIANT") then ("(@_@)Brilliant!")
  else if label = ("GOOD") then ("(^_^) Good!    ")
  else if label = ("INAC") then ("(._o)Inaccuracy")
  else if label = ("MISTAKE") then ("(T_T) Mistake..")
  else if label = ("BLUNDER") then ("(X_X) Blunder!!")
  else label

/-- main.process_move after the promotion pre-check: UCI validation, player
commit, terminal checks, synchronous engine reply, reply commit and terminal
checks.  Returns the outcome string, the new state and the serial lines. -/
def process_move_main [DecidableEq M] (R : Rules P M) (eng : Option (Eng P M))
    (s : WebState P) (move_str : String) : String × WebState P × List String :=
  match R.fromUci move_str with
  | none => (("illegal"), lcd0 s ("Illegal Move!   "), [("ILLEGAL")])
  | some move =>
    if move ∉ R.legalMoves s.board then
      (("illegal"), lcd0 s ("Illegal Move!   "), [("ILLEGAL")])
    else
      let cp_before := get_cp eng s.board s.depth
      let board1 := R.push s.board move
      let s1 : WebState P :=
        { s with
          board := board1
          board_fen := R.fenOf board1
          last_move := some move_str
          turn := if R.turnWhite board1 then ("white") else ("black") }
      if R.isCheckmate board1 then
        let winner := if R.turnWhite board1 then ("BLACK") else ("WHITE")
        let s2 := lcd01 { s1 with status := ("checkmate"), winner := some (lowerStr winner) }
          (winner ++ (" Wins!      ")) (">Play  Analysis ")
        let cp_after := get_cp eng board1 s.depth
        let delta := cp_before - cp_after
        let elabel := classify (abs delta)
        let s3 := { s2 with move_history := s2.move_history ++
          [{ move := move_str, eval_label := elabel, cp_before := cp_before, cp_after := cp_after }] }
        (("checkmate"), s3, [("CHECKMATE:") ++ winner])
      else if R.isStalemate board1 ∨ R.isInsufficientMaterial board1 ∨
          R.isFiftyMoves board1 ∨ R.isRepetition board1 then
        (("stalemate"), lcd01 { s1 with status := ("stalemate") } ("Stalemate!      ")
          (">Play  Analysis "), [("STALEMATE")])
      else
        let cp_after := get_cp eng board1 s.depth
        let delta0 := cp_before - cp_after
        let delta := if s.player_color = ("black") then -delta0 else delta0
        let elabel := classify delta
        let s2 := { s1 with eval_label := some elabel, eval_cp := cp_after, thinking := true }
        let s3 := lcd0 s2 (webEmoticon elabel)
        let s4 := { s3 with move_history := s3.move_history ++
          [{ move := move_str, eval_label := elabel, cp_before := cp_before, cp_after := cp_after }] }
        let s5 :=
          if 0 < s4.increment then
            if s4.player_color = ("white") then { s4 with timer_white := s4.timer_white + s4.increment }
            else { s4 with timer_black := s4.timer_black + s4.increment }
          else s4
        let s6 := lcd0 s5 ("Thinking...     ")
        let best :=
          match eng with
          | some e => e.play board1 s.depth
          | none => (R.legalMoves board1).head?
        match best with
        | none => (("no_move"), { s6 with thinking := false }, [("EVAL:") ++ elabel])
        | some b =>
          let best_uci := R.uciOf b
          let cp_before_engine := get_cp eng board1 s.depth
          let board2 := R.push board1 b
          let s7 : WebState P :=
            { s6 with
              board := board2
              board_fen := R.fenOf board2
              best_move := some best_uci
              last_move := some best_uci
              turn := if R.turnWhite board2 then ("white") else ("black")
              thinking := false }
          let s8 := lcd01 s7 (takeStr (("Best: ") ++ upperStr best_uci ++ ("        ")) 16)
            (timer_lcd_row s7)
          let r9 :=
            if R.isCheckmate board2 then
              let winner := if R.turnWhite board2 then ("BLACK") else ("WHITE")
              (lcd01 { s8 with status := ("checkmate"), winner := some (lowerStr winner) }
                (winner ++ (" Wins!      ")) (">Play  Analysis "), [("CHECKMATE:") ++ winner])
            else if R.isStalemate board2 ∨ R.isInsufficientMaterial board2 ∨
                R.isFiftyMoves board2 ∨ R.isRepetition board2 then
              (lcd01 { s8 with status := ("stalemate") } ("Stalemate!      ")
                (">Play  Analysis "), [("STALEMATE")])
            else (s8, [])
          let cp_after_engine := get_cp eng board2 s.depth
          let delta_engine := cp_before_engine - cp_after_engine
          let engine_label := classify (abs delta_engine)
          let s10 := { r9.1 with
            move_history := r9.1.move_history ++
              [{ move := best_uci, eval_label := engine_label, cp_before := cp_before_engine
                 cp_after := cp_after_engine }]
            eval_cp := cp_after_engine }
          let s11 :=
            if 0 < s10.increment then
              if s10.player_color = ("white") then { s10 with timer_black := s10.timer_black + s10.increment }
              else { s10 with timer_white := s10.timer_white + s10.increment }
            else s10
          (("ok"), s11, ([("EVAL:") ++ elabel, ("BEST:") ++ upperStr best_uci] ++ r9.2))

/-- main.process_move.  The promotion pre-check runs first: a four-character
text whose squares parse and whose from-square holds a pawn headed to its last
rank yields the undocumented promote outcome before any validation.  The two
chess.parse_square calls of that pre-check are outside any try block, so an
unparseable four-character text raises ValueError out of the function,
modelled by the error case (no state was mutated by then). -/
def process_move [DecidableEq M] (R : Rules P M) (eng : Option (Eng P M))
    (s : WebState P) (move_uci : String) :
    Except Unit (String × WebState P × List String) :=
  let move_str := lowerStr (stripStr move_uci)
  if move_str.length = 4 then
    match R.parseSquare (takeStr move_str 2) with
    | none => Except.error ()
    | some from_sq =>
      match R.parseSquare (takeStr (dropStr move_str 2) 2) with
      | none => Except.error ()
      | some to_sq =>
        match R.pieceAt s.board from_sq with
        | some p =>
          if p.ptype = PieceType.pawn ∧
              ((p.white = true ∧ square_rank to_sq = 7) ∨
               (p.white = false ∧ square_rank to_sq = 0)) then
            Except.ok (("promote"), lcd0 s ("1B 2N 3R 4Q     "), [("PROMOTE")])
          else Except.ok (process_move_main R eng s move_str)
        | none => Except.ok (process_move_main R eng s move_str)
  else Except.ok (process_move_main R eng s move_str)

/-- One iteration of main.timer_loop: a no-op unless playing, with both clocks
zero (timer disabled) or while the engine is thinking; otherwise only the
human player's clock is ever decremented, and its reaching zero ends the game
with the automated side as winner. -/
def timer_tick (s : WebState P) : WebState P × List String :=
  if s.status ≠ ("playing") then (s, [])
  else if s.timer_white = 0 ∧ s.timer_black = 0 then (s, [])
  else if s.thinking = true then (s, [])
  else
    let r1 :=
      if s.turn = s.player_color then
        if s.player_color = ("white") then
          if 0 < s.timer_white then
            let s' := { s with timer_white := s.timer_white - 1 }
            if s'.timer_white = 0 then
              (lcd01 { s' with status := ("checkmate"), winner := some ("black") }
                ("Black Wins! Time") (">Play  Analysis "), [("CHECKMATE:BLACK")])
            else (s', [])
          else (s, ([] : List String))
        else
          if 0 < s.timer_black then
            let s' := { s with timer_black := s.timer_black - 1 }
            if s'.timer_black = 0 then
              (lcd01 { s' with status := ("checkmate"), winner := some ("white") }
                ("White Wins! Time") (">Play  Analysis "), [("CHECKMATE:WHITE")])
            else (s', [])
          else (s, [])
      else (s, [])
    let s2 := if r1.1.status = ("playing") then { r1.1 with lcd_row1 := timer_lcd_row r1.1 }
      else r1.1
    (s2, r1.2)

end Web

/-- The initial shared state dict of main.py (lines 48-68) plus the board and
DEPTH globals. -/
def Web.webInit {P M : Type} (R : Rules P M) : Web.WebState P :=
  { board := R.startPos
    depth := 5
    board_fen := R.startFen
    turn := ("white")
    eval_label := none
    eval_cp := 0
    best_move := none
    last_move := none
    hint_move := none
    status := ("waiting")
    winner := none
    move_history := []
    timer_white := 600
    timer_black := 600
    increment := 0
    difficulty := 5
    player_color := ("white")
    game_id := 0
    lcd_row0 := ("ChessBot Arena  ")
    lcd_row1 := ("  Ready...      ")
    thinking := false }

/-- A degenerate RulesEngine over a one-point position type: no move ever
parses and no position is terminal.  Used to instantiate theorems whose
content does not depend on chess itself. -/
def trivRules : Rules Unit Unit :=
  { startPos := ()
    startFen := ("fen0")
    legalMoves := fun _ => []
    push := fun p _ => p
    turnWhite := fun _ => true
    isCheckmate := fun _ => false
    isStalemate := fun _ => false
    isInsufficientMaterial := fun _ => false
    isFiftyMoves := fun _ => false
    isRepetition := fun _ => false
    isCheck := fun _ => false
    sanOf := fun _ _ => ("mv")
    uciOf := fun _ => ("mv")
    fenOf := fun _ => ("fen0")
    fromUci := fun _ => none
    parseSan := fun _ _ => none
    parseSquare := fun _ => none
    toSquare := fun _ => 0
    fromSquare := fun _ => 0
    pieceAt := fun _ _ => none
    moveFalsy := fun _ => false }

/-- A GameManager session over trivRules whose game is running. -/
def trivPlaying : GM.GMState Unit :=
  { GM.initState trivRules with status := ("playing") }

/-- A small concrete RulesEngine with positions and moves numbered: position 0
is the start, the text e2e4 parses to move 1 which is legal there, and after
it move 2 is the one legal reply.  Pushing any move advances the position
counter, and White is to move at even positions. -/
def T3R : Rules Nat Nat :=
  { startPos := 0
    startFen := ("fenA")
    legalMoves := fun p => if p = 0 then [1] else if p = 1 then [2] else []
    push := fun p _ => p + 1
    turnWhite := fun p => p % 2 = 0
    isCheckmate := fun _ => false
    isStalemate := fun _ => false
    isInsufficientMaterial := fun _ => false
    isFiftyMoves := fun _ => false
    isRepetition := fun _ => false
    isCheck := fun _ => false
    sanOf := fun _ m => ("s") ++ toString m
    uciOf := fun m => ("u") ++ toString m
    fenOf := fun p => ("fen") ++ toString p
    fromUci := fun s => if s = ("e2e4") then some 1 else none
    parseSan := fun _ _ => none
    parseSquare := fun _ => none
    toSquare := fun _ => 0
    fromSquare := fun _ => 0
    pieceAt := fun _ _ => none
    moveFalsy := fun _ => false }

/-- A StrategyEngine for T3R: replies with move 2 from position 1. -/
def T3E : Eng Nat Nat :=
  { play := fun p _ => if p = 1 then some 2 else none
    analyse := fun _ _ => Score.cp 0 }

/-- A concrete RulesEngine for the destination-square scenario: at position
100 two legal moves target square 28 (e4) — move 1 by a knight from square 18
(c3) and move 2 by a pawn from square 12 (e2) — and the text e4 names only
that square. -/
def T5R : Rules Nat Nat :=
  { startPos := 100
    startFen := ("fenB")
    legalMoves := fun p => if p = 100 then [1, 2] else []
    push := fun p m => p + m
    turnWhite := fun p => p % 2 = 0
    isCheckmate := fun _ => false
    isStalemate := fun _ => false
    isInsufficientMaterial := fun _ => false
    isFiftyMoves := fun _ => false
    isRepetition := fun _ => false
    isCheck := fun _ => false
    sanOf := fun _ m => ("s") ++ toString m
    uciOf := fun m => ("u") ++ toString m
    fenOf := fun p => ("fen") ++ toString p
    fromUci := fun _ => none
    parseSan := fun _ _ => none
    parseSquare := fun s => if s = ("e4") then some 28 else none
    toSquare := fun m => if m = 1 ∨ m = 2 then 28 else 0
    fromSquare := fun m => if m = 1 then 18 else if m = 2 then 12 else 0
    pieceAt := fun p sq =>
      if p = 100 ∧ sq = 18 then some { ptype := PieceType.knight, white := true }
      else if p = 100 ∧ sq = 12 then some { ptype := PieceType.pawn, white := true }
      else none
    moveFalsy := fun _ => false }

/-- A GameManager session over T5R whose game is running. -/
def q5s : GM.GMState Nat :=
  { GM.initState T5R with status := ("playing") }

/-- A RulesEngine whose SAN rendering is the fixed text Qh5, for the hint
scenario. -/
def T7R : Rules Unit Unit :=
  { trivRules with sanOf := fun _ _ => ("Qh5") }

/-- A StrategyEngine for T7R that always returns a move. -/
def E7 : Eng Unit Unit :=
  { play := fun _ _ => some ()
    analyse := fun _ _ => Score.cp 0 }

/-- A running GameManager session over T7R, about to be resigned while a hint
task is in flight. -/
def s7pre : GM.GMState Unit :=
  { GM.initState T7R with status := ("playing") }

/-- A running web-variant session over T3R for the engine-unavailable
scenario. -/
def w8s : Web.WebState Nat :=
  { Web.webInit T3R with status := ("playing") }

/-- A running web-variant session whose thinking flag is set, for the clock
exclusions. -/
def w9s : Web.WebState Nat :=
  { Web.webInit T3R with status := ("playing"), thinking := true }

/-- A RulesEngine for the promotion scenario: the squares e7 and e8 parse to
their python-chess indices and a white pawn stands on e7. -/
def T10R : Rules Nat Nat :=
  { startPos := 0
    startFen := ("fenC")
    legalMoves := fun _ => []
    push := fun p _ => p + 1
    turnWhite := fun p => p % 2 = 0
    isCheckmate := fun _ => false
    isStalemate := fun _ => false
    isInsufficientMaterial := fun _ => false
    isFiftyMoves := fun _ => false
    isRepetition := fun _ => false
    isCheck := fun _ => false
    sanOf := fun _ m => ("s") ++ toString m
    uciOf := fun m => ("u") ++ toString m
    fenOf := fun p => ("fen") ++ toString p
    fromUci := fun _ => none
    parseSan := fun _ _ => none
    parseSquare := fun s => if s = ("e7") then some 52 else if s = ("e8") then some 60 else none
    toSquare := fun _ => 0
    fromSquare := fun _ => 0
    pieceAt := fun p sq =>
      if p = 0 ∧ sq = 52 then some { ptype := PieceType.pawn, white := true } else none
    moveFalsy := fun _ => false }

/-- A running web-variant session over T10R. -/
def w10s : Web.WebState Nat :=
  { Web.webInit T10R with status := ("playing") }

section GMLemmas

variable {P M : Type}

theorem GM.make_move_board (R : Rules P M) (eng : Option (Eng P M)) (s : GM.GMState P)
    (m : M) (fb : Bool) : (GM.make_move R eng s m fb).1.board = R.push s.board m := by
  simp only [GM.make_move, GM.update_lcd0]
  split_ifs <;> rfl

theorem GM.make_move_game_id (R : Rules P M) (eng : Option (Eng P M)) (s : GM.GMState P)
    (m : M) (fb : Bool) : (GM.make_move R eng s m fb).1.game_id = s.game_id := by
  simp only [GM.make_move, GM.update_lcd0]
  split_ifs <;> rfl

theorem GM.make_move_status (R : Rules P M) (eng : Option (Eng P M)) (s : GM.GMState P)
    (m : M) (fb : Bool) : (GM.make_move R eng s m fb).1.status = s.status := by
  simp only [GM.make_move, GM.update_lcd0]
  split_ifs <;> rfl

theorem GM.make_move_turn (R : Rules P M) (eng : Option (Eng P M)) (s : GM.GMState P)
    (m : M) (fb : Bool) : (GM.make_move R eng s m fb).1.turn =
      if R.turnWhite (R.push s.board m) then ("white") else ("black") := by
  simp only [GM.make_move, GM.update_lcd0]
  split_ifs <;> rfl

theorem GM.make_move_last_move (R : Rules P M) (eng : Option (Eng P M)) (s : GM.GMState P)
    (m : M) (fb : Bool) : (GM.make_move R eng s m fb).1.last_move = some (R.uciOf m) := by
  simp only [GM.make_move, GM.update_lcd0]
  split_ifs <;> rfl

theorem GM.make_move_depth (R : Rules P M) (eng : Option (Eng P M)) (s : GM.GMState P)
    (m : M) (fb : Bool) : (GM.make_move R eng s m fb).1.depth = s.depth := by
  simp only [GM.make_move, GM.update_lcd0]
  split_ifs <;> rfl

theorem GM.make_move_history_len (R : Rules P M) (eng : Option (Eng P M)) (s : GM.GMState P)
    (m : M) (fb : Bool) :
    (GM.make_move R eng s m fb).1.history.length = s.history.length + 1 := by
  simp only [GM.make_move, GM.update_lcd0]
  split_ifs <;> simp

theorem GM.make_move_timers (R : Rules P M) (eng : Option (Eng P M)) (s : GM.GMState P)
    (m : M) (fb : Bool) :
    s.timer_white ≤ (GM.make_move R eng s m fb).1.timer_white ∧
    s.timer_black ≤ (GM.make_move R eng s m fb).1.timer_black := by
  simp only [GM.make_move, GM.update_lcd0]
  split_ifs <;> constructor <;> (try simp_all) <;> omega

theorem GM.check_game_over_fields (R : Rules P M) (s : GM.GMState P) :
    (GM.check_game_over R s).1.board = s.board ∧
    (GM.check_game_over R s).1.game_id = s.game_id ∧
    (GM.check_game_over R s).1.turn = s.turn ∧
    (GM.check_game_over R s).1.history = s.history ∧
    (GM.check_game_over R s).1.last_move = s.last_move ∧
    (GM.check_game_over R s).1.timer_white = s.timer_white ∧
    (GM.check_game_over R s).1.timer_black = s.timer_black := by
  unfold GM.check_game_over
  split_ifs <;> exact ⟨rfl, rfl, rfl, rfl, rfl, rfl, rfl⟩

theorem GM.check_game_over_not_terminal (R : Rules P M) (s : GM.GMState P)
    (h1 : R.isCheckmate s.board = false) (h2 : R.isStalemate s.board = false)
    (h3 : R.isInsufficientMaterial s.board = false) :
    GM.check_game_over R s = (s, [], [], false) := by
  simp [GM.check_game_over, h1, h2, h3]

end GMLemmas

section Claim4

/-- C4: the GameManager move-quality classifier is a pure total function of
the signed delta with the documented 30 / 90 / 200 thresholds; the labels
Brilliant, Good, Inaccuracy, Mistake and Blunder are rendered by the source
as BRILLIANT, GOOD, INAC, MISTAKE and BLUNDER.  (The parallel web variant in
main.py uses the 20 / 50 / 100 table, the explicitly documented second variant
of this design parameter; the specification and this claim pick the
GameManager table.) -/
theorem C4_classifier_total (d : Int) :
    (d < 0 → GM.classify_move d = ("BRILLIANT")) ∧
    (0 ≤ d → d ≤ 30 → GM.classify_move d = ("GOOD")) ∧
    (31 ≤ d → d ≤ 90 → GM.classify_move d = ("INAC")) ∧
    (91 ≤ d → d ≤ 200 → GM.classify_move d = ("MISTAKE")) ∧
    (200 < d → GM.classify_move d = ("BLUNDER")) ∧
    GM.classify_move (-5) = ("BRILLIANT") ∧
    GM.classify_move 0 = ("GOOD") ∧
    GM.classify_move 30 = ("GOOD") ∧
    GM.classify_move 31 = ("INAC") ∧
    GM.classify_move 200 = ("MISTAKE") ∧
    GM.classify_move 201 = ("BLUNDER") := by
  refine ⟨?_, ?_, ?_, ?_, ?_, by decide, by decide, by decide, by decide, by decide, by decide⟩ <;>
    · intros
      unfold GM.classify_move
      split_ifs <;> first | rfl | omega

/-- Witness for C4 at concrete deltas. -/
theorem C4_classifier_total_witness :
    GM.classify_move 42 = ("INAC") ∧ GM.classify_move (-7) = ("BRILLIANT") :=
  ⟨(C4_classifier_total 42).2.2.1 (by decide) (by decide), (C4_classifier_total (-7)).1 (by decide)⟩

end Claim4

section Claim1

variable {P M : Type}

/-- C1: reset_game strictly increments the generation counter game_id;
process_move never changes it; and an opponent-reply task whose spawn-time
generation tag is stale (or that completes outside Playing) aborts in both of
its locked sections without touching the session — in particular a task
spawned before a reset finds the incremented generation and commits nothing
to the post-reset session. -/
theorem C1_generation [DecidableEq M] (R : Rules P M) (eng : Option (Eng P M))
    (s : GM.GMState P) (d mins inc : Int) (pc : String) (str : String) (gid : Nat)
    (mv : Option M) :
    (GM.reset_game R s d mins inc pc).1.game_id = s.game_id + 1 ∧
    (GM.process_move R eng s str).state.game_id = s.game_id ∧
    (gid ≠ s.game_id ∨ s.status ≠ ("playing") →
      GM.ai_check1 gid s = none ∧
      GM.ai_commit R eng gid mv s = (s, [], []) ∧
      GM.ai_move_task R eng gid s = Except.ok (s, [], [])) ∧
    (gid = s.game_id →
      GM.ai_commit R eng gid mv (GM.reset_game R s d mins inc pc).1 =
        ((GM.reset_game R s d mins inc pc).1, [], [])) := by
  have hcond : ∀ t : GM.GMState P, gid ≠ t.game_id ∨ t.status ≠ ("playing") →
      (t.game_id ≠ gid ∨ t.status ≠ ("playing")) := by
    intro t h
    rcases h with h | h
    · exact Or.inl (Ne.symm h)
    · exact Or.inr h
  refine ⟨rfl, ?_, ?_, ?_⟩
  · unfold GM.process_move
    split_ifs
    · rfl
    · rcases hm : GM.resolveLegal R s.board (stripStr str) with _ | m
      · simp only [hm]
        rfl
      · simp only [hm]
        have h1 := GM.make_move_game_id R eng s m true
        have h2 := (GM.check_game_over_fields R (GM.make_move R eng s m true).1).2.1
        split_ifs <;> simp only [] <;> rw [h2, h1]
  · intro h
    have hc : GM.ai_check1 gid s = none := by
      unfold GM.ai_check1
      rw [if_pos (hcond s h)]
    refine ⟨hc, ?_, ?_⟩
    · unfold GM.ai_commit
      rw [if_pos (hcond s h)]
    · unfold GM.ai_move_task
      rw [hc]
  · intro h
    unfold GM.ai_commit
    rw [if_pos]
    left
    have : (GM.reset_game R s d mins inc pc).1.game_id = s.game_id + 1 := rfl
    omega

/-- Witness for C1 over the degenerate rules instance: the first reset bumps
the generation from 0 to 1, and a task tagged with the stale generation 0
aborts against the post-reset session. -/
theorem C1_generation_witness :
    (GM.reset_game trivRules (GM.initState trivRules) 5 10 0 ("white")).1.game_id =
      (GM.initState trivRules).game_id + 1 ∧
    GM.ai_commit trivRules none 0
      (some ()) (GM.reset_game trivRules (GM.initState trivRules) 5 10 0 ("white")).1 =
      ((GM.reset_game trivRules (GM.initState trivRules) 5 10 0 ("white")).1, [], []) :=
  ⟨(C1_generation trivRules none (GM.initState trivRules) 5 10 0 ("white") ("") 0 (some ())).1,
    (C1_generation trivRules none (GM.initState trivRules) 5 10 0 ("white") ("") 0
      (some ())).2.2.2 (by decide)⟩

end Claim1

section Claim6

variable {P M : Type}

/-- C6: while Playing, a move text that resolves to no legal move (the
resolution chain yields nothing, or a falsy or illegal move) makes
process_move return illegal, emit exactly one ILLEGAL serial line and persist
nothing, leaving history, position (board and FEN), turn, both clocks, status
and the generation all unchanged, with no reply task spawned.  (Only the
cosmetic LCD mirror is rewritten.) -/
theorem C6_illegal_rejection [DecidableEq M] (R : Rules P M) (eng : Option (Eng P M))
    (s : GM.GMState P) (str : String)
    (hst : s.status = ("playing"))
    (hres : GM.resolveLegal R s.board (stripStr str) = none) :
    (GM.process_move R eng s str).outcome = ("illegal") ∧
    (GM.process_move R eng s str).sent = [("ILLEGAL")] ∧
    (GM.process_move R eng s str).saved = [] ∧
    (GM.process_move R eng s str).state.history = s.history ∧
    (GM.process_move R eng s str).state.board = s.board ∧
    (GM.process_move R eng s str).state.fen = s.fen ∧
    (GM.process_move R eng s str).state.turn = s.turn ∧
    (GM.process_move R eng s str).state.timer_white = s.timer_white ∧
    (GM.process_move R eng s str).state.timer_black = s.timer_black ∧
    (GM.process_move R eng s str).state.status = s.status ∧
    (GM.process_move R eng s str).state.game_id = s.game_id ∧
    (GM.process_move R eng s str).spawned = none := by
  unfold GM.process_move
  rw [if_neg (by simp [hst]), hres]
  exact ⟨rfl, rfl, rfl, rfl, rfl, rfl, rfl, rfl, rfl, rfl, rfl, rfl⟩

/-- Witness for C6: the unparseable text xx against a running session of the
degenerate rules instance. -/
theorem C6_illegal_rejection_witness :
    (GM.process_move trivRules none trivPlaying ("xx")).outcome = ("illegal") ∧
    (GM.process_move trivRules none trivPlaying ("xx")).sent = [("ILLEGAL")] ∧
    (GM.process_move trivRules none trivPlaying ("xx")).state.history = trivPlaying.history := by
  have h := C6_illegal_rejection trivRules none trivPlaying ("xx") (by decide) (by decide)
  exact ⟨h.1, h.2.1, h.2.2.2.1⟩

end Claim6

section Claim10

variable {P M : Type}

/-- C10: in the web/serial variant, a four-character move text whose squares
parse and whose from-square holds a pawn headed to its final rank (rank 8 for
White, rank 1 for Black) with no promotion piece named makes process_move
return the outcome promote — a value outside the documented outcome set —
emit one PROMOTE notification, and commit nothing: board, move history and
status are unchanged (only the LCD mirror row is rewritten). -/
theorem C10_promote_outcome [DecidableEq M] (R : Rules P M) (eng : Option (Eng P M))
    (s : Web.WebState P) (t : String) (from_sq to_sq : Nat) (p : Piece)
    (hlen : (lowerStr (stripStr t)).length = 4)
    (h1 : R.parseSquare (takeStr (lowerStr (stripStr t)) 2) = some from_sq)
    (h2 : R.parseSquare (takeStr (dropStr (lowerStr (stripStr t)) 2) 2) = some to_sq)
    (hp : R.pieceAt s.board from_sq = some p)
    (hpt : p.ptype = PieceType.pawn)
    (hrank : (p.white = true ∧ square_rank to_sq = 7) ∨
      (p.white = false ∧ square_rank to_sq = 0)) :
    Web.process_move R eng s t =
      Except.ok (("promote"), Web.lcd0 s ("1B 2N 3R 4Q     "), [("PROMOTE")]) ∧
    (Web.lcd0 s ("1B 2N 3R 4Q     ")).board = s.board ∧
    (Web.lcd0 s ("1B 2N 3R 4Q     ")).move_history = s.move_history ∧
    (Web.lcd0 s ("1B 2N 3R 4Q     ")).status = s.status ∧
    ¬ (("promote") ∈ [("illegal"), ("not_playing"), ("ok"), ("game_over")]) := by
  refine ⟨?_, rfl, rfl, rfl, by decide⟩
  unfold Web.process_move
  rcases hrank with ⟨hw, hr⟩ | ⟨hw, hr⟩ <;>
    simp only [hlen, h1, h2, hp, hpt, hw, hr, reduceIte] <;> simp

/-- Witness for C10: the text e7e8 with a white pawn on e7 in the concrete
promotion scenario. -/
theorem C10_promote_outcome_witness :
    Web.process_move T10R none w10s ("e7e8") =
      Except.ok (("promote"), Web.lcd0 w10s ("1B 2N 3R 4Q     "), [("PROMOTE")]) :=
  (C10_promote_outcome T10R none w10s ("e7e8") 52 60
    { ptype := PieceType.pawn, white := true } (by decide) (by decide) (by decide)
    (by decide) (by decide) (Or.inl (by decide))).1

end Claim10

section Claim9

variable {P M : Type}

/-- C9: the web/serial clock loop only ever decrements the human player's
clock.  A tick taken while the turn belongs to the automated side, or while
the thinking flag is set, or while both clocks are zero, leaves both clocks
unchanged; whichever side is the automated one, its clock is unchanged by
every tick; and when a tick changes the status (a timeout) the winner is
always the automated side, so the automated side can never lose on time. -/
theorem Web.tick_not_playing (s : Web.WebState P) (h : s.status ≠ ("playing")) :
    Web.timer_tick s = (s, []) := by
  unfold Web.timer_tick
  rw [if_pos h]

theorem Web.tick_zero (s : Web.WebState P) (h : s.status = ("playing"))
    (hw : s.timer_white = 0) (hb : s.timer_black = 0) : Web.timer_tick s = (s, []) := by
  unfold Web.timer_tick
  rw [if_neg (by simp [h]), if_pos ⟨hw, hb⟩]

theorem Web.tick_thinking (s : Web.WebState P) (h : s.status = ("playing"))
    (hbz : ¬(s.timer_white = 0 ∧ s.timer_black = 0)) (ht : s.thinking = true) :
    Web.timer_tick s = (s, []) := by
  unfold Web.timer_tick
  rw [if_neg (by simp [h]), if_neg hbz, if_pos ht]

theorem Web.tick_opponent (s : Web.WebState P) (h : s.status = ("playing"))
    (hbz : ¬(s.timer_white = 0 ∧ s.timer_black = 0)) (ht : s.thinking = false)
    (hturn : s.turn ≠ s.player_color) :
    Web.timer_tick s = ({ s with lcd_row1 := Web.timer_lcd_row s }, []) := by
  simp only [Web.timer_tick, h, hbz, ht, hturn, reduceIte, Bool.false_eq_true,
    if_false, if_true, ne_eq, not_false_eq_true]
  simp [h]

theorem Web.tick_white_dec (s : Web.WebState P) (h : s.status = ("playing"))
    (hbz : ¬(s.timer_white = 0 ∧ s.timer_black = 0)) (ht : s.thinking = false)
    (hturn : s.turn = s.player_color) (hpc : s.player_color = ("white"))
    (hpos : 0 < s.timer_white) (hne : ¬(s.timer_white - 1 = 0)) :
    Web.timer_tick s =
      ({ s with
          timer_white := s.timer_white - 1
          lcd_row1 := Web.timer_lcd_row { s with timer_white := s.timer_white - 1 } }, []) := by
  simp only [Web.timer_tick, h, hbz, ht, hturn, hpc, hpos, hne, reduceIte,
    Bool.false_eq_true, if_false, if_true]
  simp [h]

theorem Web.tick_white_timeout (s : Web.WebState P) (h : s.status = ("playing"))
    (hbz : ¬(s.timer_white = 0 ∧ s.timer_black = 0)) (ht : s.thinking = false)
    (hturn : s.turn = s.player_color) (hpc : s.player_color = ("white"))
    (hpos : 0 < s.timer_white) (hz : s.timer_white - 1 = 0) :
    Web.timer_tick s =
      (Web.lcd01 { s with
          timer_white := s.timer_white - 1
          status := ("checkmate")
          winner := some ("black") } ("Black Wins! Time") (">Play  Analysis "),
        [("CHECKMATE:BLACK")]) := by
  simp only [Web.timer_tick, h, hbz, ht, hturn, hpc, hpos, hz, reduceIte,
    Bool.false_eq_true, if_false, if_true, Web.lcd01]
  simp

theorem Web.tick_white_floor (s : Web.WebState P) (h : s.status = ("playing"))
    (hbz : ¬(s.timer_white = 0 ∧ s.timer_black = 0)) (ht : s.thinking = false)
    (hturn : s.turn = s.player_color) (hpc : s.player_color = ("white"))
    (hpos : ¬(0 < s.timer_white)) :
    Web.timer_tick s = ({ s with lcd_row1 := Web.timer_lcd_row s }, []) := by
  simp only [Web.timer_tick, h, hbz, ht, hturn, hpc, hpos, reduceIte,
    Bool.false_eq_true, if_false, if_true]
  simp [h]

theorem Web.tick_black_dec (s : Web.WebState P) (h : s.status = ("playing"))
    (hbz : ¬(s.timer_white = 0 ∧ s.timer_black = 0)) (ht : s.thinking = false)
    (hturn : s.turn = s.player_color) (hpc : ¬(s.player_color = ("white")))
    (hpos : 0 < s.timer_black) (hne : ¬(s.timer_black - 1 = 0)) :
    Web.timer_tick s =
      ({ s with
          timer_black := s.timer_black - 1
          lcd_row1 := Web.timer_lcd_row { s with timer_black := s.timer_black - 1 } }, []) := by
  simp only [Web.timer_tick, h, hbz, ht, hturn, hpc, hpos, hne, reduceIte,
    Bool.false_eq_true, if_false, if_true]
  simp [h]

theorem Web.tick_black_timeout (s : Web.WebState P) (h : s.status = ("playing"))
    (hbz : ¬(s.timer_white = 0 ∧ s.timer_black = 0)) (ht : s.thinking = false)
    (hturn : s.turn = s.player_color) (hpc : ¬(s.player_color = ("white")))
    (hpos : 0 < s.timer_black) (hz : s.timer_black - 1 = 0) :
    Web.timer_tick s =
      (Web.lcd01 { s with
          timer_black := s.timer_black - 1
          status := ("checkmate")
          winner := some ("white") } ("White Wins! Time") (">Play  Analysis "),
        [("CHECKMATE:WHITE")]) := by
  simp only [Web.timer_tick, h, hbz, ht, hturn, hpc, hpos, hz, reduceIte,
    Bool.false_eq_true, if_false, if_true, Web.lcd01]
  simp

theorem Web.tick_black_floor (s : Web.WebState P) (h : s.status = ("playing"))
    (hbz : ¬(s.timer_white = 0 ∧ s.timer_black = 0)) (ht : s.thinking = false)
    (hturn : s.turn = s.player_color) (hpc : ¬(s.player_color = ("white")))
    (hpos : ¬(0 < s.timer_black)) :
    Web.timer_tick s = ({ s with lcd_row1 := Web.timer_lcd_row s }, []) := by
  simp only [Web.timer_tick, h, hbz, ht, hturn, hpc, hpos, reduceIte,
    Bool.false_eq_true, if_false, if_true]
  simp [h]

/-- C9: the web/serial clock loop only ever decrements the human player's
clock.  A tick taken while the turn belongs to the automated side, or while
the thinking flag is set, or while both clocks are zero, leaves both clocks
unchanged; whichever side is the automated one, its clock is unchanged by
every tick; and when a tick changes the status (a timeout) the winner is
always the automated side, so the automated side can never lose on time. -/
theorem C9_web_clock_human_only (s : Web.WebState P) :
    ((s.turn ≠ s.player_color ∨ s.thinking = true ∨
        (s.timer_white = 0 ∧ s.timer_black = 0)) →
      (Web.timer_tick s).1.timer_white = s.timer_white ∧
      (Web.timer_tick s).1.timer_black = s.timer_black) ∧
    (s.player_color = ("white") → (Web.timer_tick s).1.timer_black = s.timer_black) ∧
    (s.player_color ≠ ("white") → (Web.timer_tick s).1.timer_white = s.timer_white) ∧
    ((Web.timer_tick s).1.status ≠ s.status →
      (Web.timer_tick s).1.status = ("checkmate") ∧
      (Web.timer_tick s).1.winner =
        some (if s.player_color = ("white") then ("black") else ("white"))) := by
  by_cases h : s.status = ("playing")
  case neg =>
    rw [Web.tick_not_playing s h]
    exact ⟨fun _ => ⟨rfl, rfl⟩, fun _ => rfl, fun _ => rfl, fun hc => absurd rfl hc⟩
  case pos =>
  by_cases hbz : s.timer_white = 0 ∧ s.timer_black = 0
  case pos =>
    rw [Web.tick_zero s h hbz.1 hbz.2]
    exact ⟨fun _ => ⟨rfl, rfl⟩, fun _ => rfl, fun _ => rfl, fun hc => absurd rfl hc⟩
  case neg =>
  by_cases hth : s.thinking = true
  case pos =>
    rw [Web.tick_thinking s h hbz hth]
    exact ⟨fun _ => ⟨rfl, rfl⟩, fun _ => rfl, fun _ => rfl, fun hc => absurd rfl hc⟩
  case neg =>
  have hth' : s.thinking = false := by simpa using hth
  by_cases hturn : s.turn = s.player_color
  case neg =>
    rw [Web.tick_opponent s h hbz hth' hturn]
    exact ⟨fun _ => ⟨rfl, rfl⟩, fun _ => rfl, fun _ => rfl, fun hc => absurd rfl hc⟩
  case pos =>
  by_cases hpc : s.player_color = ("white")
  case pos =>
    by_cases hpos : 0 < s.timer_white
    case neg =>
      rw [Web.tick_white_floor s h hbz hth' hturn hpc hpos]
      exact ⟨fun hx => ⟨rfl, rfl⟩, fun _ => rfl, fun _ => rfl, fun hc => absurd rfl hc⟩
    case pos =>
      by_cases hz : s.timer_white - 1 = 0
      case neg =>
        rw [Web.tick_white_dec s h hbz hth' hturn hpc hpos hz]
        refine ⟨fun hx => ?_, fun _ => rfl, fun hc => absurd hpc hc, fun hc => absurd rfl hc⟩
        rcases hx with hx | hx | hx
        · exact absurd hturn hx
        · rw [hth'] at hx
          exact absurd hx (by simp)
        · exact absurd hx hbz
      case pos =>
        rw [Web.tick_white_timeout s h hbz hth' hturn hpc hpos hz]
        refine ⟨fun hx => ?_, fun _ => rfl, fun hc => absurd hpc hc, fun _ => ?_⟩
        · rcases hx with hx | hx | hx
          · exact absurd hturn hx
          · rw [hth'] at hx
            exact absurd hx (by simp)
          · exact absurd hx hbz
        · exact ⟨rfl, by simp [Web.lcd01, hpc]⟩
  case neg =>
    by_cases hpos : 0 < s.timer_black
    case neg =>
      rw [Web.tick_black_floor s h hbz hth' hturn hpc hpos]
      exact ⟨fun hx => ⟨rfl, rfl⟩, fun hc => absurd hc hpc, fun _ => rfl,
        fun hc => absurd rfl hc⟩
    case pos =>
      by_cases hz : s.timer_black - 1 = 0
      case neg =>
        rw [Web.tick_black_dec s h hbz hth' hturn hpc hpos hz]
        refine ⟨fun hx => ?_, fun hc => absurd hc hpc, fun _ => rfl, fun hc => absurd rfl hc⟩
        rcases hx with hx | hx | hx
        · exact absurd hturn hx
        · rw [hth'] at hx
          exact absurd hx (by simp)
        · exact absurd hx hbz
      case pos =>
        rw [Web.tick_black_timeout s h hbz hth' hturn hpc hpos hz]
        refine ⟨fun hx => ?_, fun hc => absurd hc hpc, fun _ => rfl, fun _ => ?_⟩
        · rcases hx with hx | hx | hx
          · exact absurd hturn hx
          · rw [hth'] at hx
            exact absurd hx (by simp)
          · exact absurd hx hbz
        · exact ⟨rfl, by simp [Web.lcd01, hpc]⟩

/-- Witness for C9: a tick against a running session whose thinking flag is
set leaves both clocks unchanged. -/
theorem C9_web_clock_human_only_witness :
    (Web.timer_tick w9s).1.timer_white = w9s.timer_white ∧
    (Web.timer_tick w9s).1.timer_black = w9s.timer_black :=
  (C9_web_clock_human_only w9s).1 (Or.inr (Or.inl (by decide)))

end Claim9

section Claim7

variable {P M : Type}

theorem GM.hint_phase2_fields (R : Rules P M) (eng : Option (Eng P M)) (bc : P)
    (s : GM.GMState P) :
    (GM.hint_phase2 R eng bc s).1.board = s.board ∧
    (GM.hint_phase2 R eng bc s).1.history = s.history ∧
    (GM.hint_phase2 R eng bc s).1.status = s.status ∧
    (GM.hint_phase2 R eng bc s).1.game_id = s.game_id := by
  cases eng with
  | none => exact ⟨rfl, rfl, rfl, rfl⟩
  | some e =>
    rcases hp : e.play bc s.depth with _ | m <;>
      simp [GM.hint_phase2, hp, GM.update_lcd0]

/-- C7 counterexample: with the engine attached, a hint task is legitimately
started while Playing (phase one snapshots the board), the game is then
resigned, and the task completion still records the hint — the session is no
longer Playing, yet hint_move goes from none to the engine's suggestion,
refuting the claim that such a completion records nothing. -/
theorem C7_hint_counterexample :
    GM.hint_phase1 (some E7) s7pre = some s7pre.board ∧
    (GM.resign s7pre).1.status ≠ ("playing") ∧
    (GM.resign s7pre).1.hint_move = none ∧
    (GM.hint_phase2 T7R (some E7) s7pre.board (GM.resign s7pre).1).1.hint_move =
      some ("Qh5") := by
  refine ⟨rfl, by decide, rfl, rfl⟩

/-- C7 amended: the hint task computes the engine's best move for the board
snapshot taken at task start (which requires the session to be Playing and an
engine to be attached) at the current difficulty, never mutates the position,
history, status or generation — but it records the result as the pending hint
whenever the engine returns a move, with no re-check that the session is
still Playing at completion time. -/
theorem C7_hint_amended (R : Rules P M) (eng : Option (Eng P M)) (E : Eng P M)
    (s : GM.GMState P) (bc : P) (m : M) :
    (GM.hint_phase1 eng s = some bc → s.status = ("playing") ∧ bc = s.board) ∧
    (s.status ≠ ("playing") → GM.hint_phase1 eng s = none) ∧
    (GM.hint_phase2 R eng bc s).1.board = s.board ∧
    (GM.hint_phase2 R eng bc s).1.history = s.history ∧
    (GM.hint_phase2 R eng bc s).1.status = s.status ∧
    (GM.hint_phase2 R eng bc s).1.game_id = s.game_id ∧
    (E.play bc s.depth = some m →
      (GM.hint_phase2 R (some E) bc s).1.hint_move = some (R.sanOf bc m)) := by
  have hf := GM.hint_phase2_fields R eng bc s
  refine ⟨?_, ?_, hf.1, hf.2.1, hf.2.2.1, hf.2.2.2, ?_⟩
  · intro hh
    unfold GM.hint_phase1 at hh
    cases eng with
    | none => exact absurd hh (by simp)
    | some e =>
      by_cases hs : s.status ≠ ("playing")
      · rw [if_pos hs] at hh
        exact absurd hh (by simp)
      · rw [if_neg hs] at hh
        exact ⟨by simpa using hs, (Option.some.inj hh).symm⟩
  · intro hs
    unfold GM.hint_phase1
    cases eng with
    | none => rfl
    | some e => rw [if_pos hs]
  · intro hp
    simp only [GM.hint_phase2, hp, GM.update_lcd0]

/-- Witness for C7 amended at the concrete hint scenario. -/
theorem C7_hint_amended_witness :
    (GM.hint_phase2 T7R (some E7) s7pre.board s7pre).1.status = s7pre.status ∧
    (GM.hint_phase2 T7R (some E7) s7pre.board s7pre).1.hint_move = some ("Qh5") :=
  ⟨(C7_hint_amended T7R (some E7) E7 s7pre s7pre.board ()).2.2.2.2.1,
    (C7_hint_amended T7R (some E7) E7 s7pre s7pre.board ()).2.2.2.2.2.2 (by decide)⟩

end Claim7

section Claim8

variable {P M : Type}

/-- C8 counterexample: with the engine unavailable and a running session, the
opponent-reply task passes its first generation check (writing the thinking
banner), then dereferences self.engine with an AttributeError — it raises
rather than treating the failure as no move, refuting the graceful-degradation
claim for the reply task. -/
theorem C8_engine_down_counterexample :
    trivPlaying.status = ("playing") ∧
    GM.ai_move_task trivRules none trivPlaying.game_id trivPlaying =
      Except.error (GM.update_lcd0 trivPlaying ("Thinking...")) := by
  refine ⟨rfl, rfl⟩

set_option maxHeartbeats 2000000 in
/-- C8 amended: when the StrategyEngine is unavailable, static evaluations
return the neutral value zero in both variants and the hint task aborts
silently; but the GameManager opponent-reply task raises (dying with its
daemon thread, the session left with only the thinking banner written), and
the web variant's ProcessMove does not treat it as no move either — it falls
back to committing the first legal move, so the session continues with a
reply committed (no_move arises only when no legal move exists). -/
theorem C8_engine_unavailable_amended [DecidableEq M] (R : Rules P M)
    (s : GM.GMState P) (sw : Web.WebState P) (b : P) (d : Int) (gid : Nat)
    (ws : String) (mw m2 : M) :
    GM.get_eval (none : Option (Eng P M)) b d = 0 ∧
    Web.get_cp (none : Option (Eng P M)) b d = 0 ∧
    GM.hint_phase1 (none : Option (Eng P M)) s = none ∧
    (s.status = ("playing") → gid = s.game_id →
      GM.ai_move_task R none gid s = Except.error (GM.update_lcd0 s ("Thinking..."))) ∧
    (R.fromUci ws = some mw → mw ∈ R.legalMoves sw.board →
      R.isCheckmate (R.push sw.board mw) = false →
      R.isStalemate (R.push sw.board mw) = false →
      R.isInsufficientMaterial (R.push sw.board mw) = false →
      R.isFiftyMoves (R.push sw.board mw) = false →
      R.isRepetition (R.push sw.board mw) = false →
      (R.legalMoves (R.push sw.board mw)).head? = some m2 →
      (Web.process_move_main R none sw ws).1 = ("ok") ∧
      (Web.process_move_main R none sw ws).2.1.last_move = some (R.uciOf m2) ∧
      (Web.process_move_main R none sw ws).2.1.move_history.length =
        sw.move_history.length + 2) := by
  refine ⟨rfl, rfl, rfl, ?_, ?_⟩
  · intro hs hg
    have hc1 : GM.ai_check1 gid s = some (GM.update_lcd0 s ("Thinking...")):= by
      unfold GM.ai_check1
      rw [if_neg (by simp [hs, hg])]
    unfold GM.ai_move_task
    rw [hc1]
  · intro h1 h2 h3 h4 h5 h6 h7 h8
    simp only [Web.process_move_main, h1, h2, h3, h4, h5, h6, h7, h8, Web.get_cp,
      Web.lcd0, Web.lcd01, not_true_eq_false, reduceIte, Bool.false_eq_true, if_false,
      if_true, or_self, or_false, false_or, not_false_eq_true]
    split_ifs <;> simp

/-- Witness for C8 amended: with no engine, the degenerate session's reply
task errors out, and the concrete web session commits the fallback reply
(two history entries) instead of reporting no move. -/
theorem C8_engine_unavailable_amended_witness :
    GM.get_eval (none : Option (Eng Unit Unit)) () 5 = 0 ∧
    GM.ai_move_task trivRules none trivPlaying.game_id trivPlaying =
      Except.error (GM.update_lcd0 trivPlaying ("Thinking...")) ∧
    (Web.process_move_main T3R none w8s ("e2e4")).1 = ("ok") ∧
    (Web.process_move_main T3R none w8s ("e2e4")).2.1.move_history.length =
      w8s.move_history.length + 2 :=
  ⟨(C8_engine_unavailable_amended trivRules trivPlaying (Web.webInit trivRules) () 5 0
      ("") () ()).1,
    (C8_engine_unavailable_amended trivRules trivPlaying (Web.webInit trivRules) () 5
      trivPlaying.game_id ("") () ()).2.2.2.1 (by decide) rfl,
    ((C8_engine_unavailable_amended T3R (GM.initState T3R) w8s 0 5 0 ("e2e4") 1 2).2.2.2.2
      (by decide) (by decide) (by decide) (by decide) (by decide) (by decide) (by decide)
      (by decide)).1,
    ((C8_engine_unavailable_amended T3R (GM.initState T3R) w8s 0 5 0 ("e2e4") 1 2).2.2.2.2
      (by decide) (by decide) (by decide) (by decide) (by decide) (by decide) (by decide)
      (by decide)).2.2⟩

end Claim8

section Claim3

variable {P M : Type}

theorem GM.ai_commit_commits [DecidableEq M] (R : Rules P M) (eng : Option (Eng P M))
    (gid : Nat) (m : M) (s : GM.GMState P)
    (hg : s.game_id = gid) (hs : s.status = ("playing")) :
    (GM.ai_commit R eng gid (some m) s).1 =
      (GM.check_game_over R
        (GM.make_move R eng (GM.update_lcd0 s (("Last: ") ++ R.sanOf s.board m)) m false).1).1 := by
  unfold GM.ai_commit
  rw [if_neg (by simp [hg, hs])]

/-- C3: after Reset(difficulty 5, 10 minutes, no increment, human White) —
which spawns no opening reply — ProcessMove e2e4 returns Ok immediately,
with the history then holding only the single human move (the reply has not
been waited for) and one opponent-reply task spawned, tagged with the current
generation; when that task then runs, the session's history has length 2 (the
human move plus one automated reply) and the turn is back with White.  The
hypotheses express, through the abstract RulesEngine interface, that e2e4 is
a legal non-terminal opening move and that the engine offers a reply after
which White is to move. -/
theorem C3_reset_then_e2e4 [DecidableEq M] (R : Rules P M) (E : Eng P M) (m1 m2 : M)
    (h1 : R.fromUci ("e2e4") = some m1)
    (hf : R.moveFalsy m1 = false)
    (hl : m1 ∈ R.legalMoves R.startPos)
    (hcm : R.isCheckmate (R.push R.startPos m1) = false)
    (hsm : R.isStalemate (R.push R.startPos m1) = false)
    (him : R.isInsufficientMaterial (R.push R.startPos m1) = false)
    (hplay : E.play (R.push R.startPos m1) 5 = some m2)
    (ht2 : R.turnWhite (R.push (R.push R.startPos m1) m2) = true) :
    (GM.reset_game R (GM.initState R) 5 10 0 ("white")).2 = none ∧
    (GM.process_move R (some E)
      (GM.reset_game R (GM.initState R) 5 10 0 ("white")).1 ("e2e4")).outcome = ("ok") ∧
    (GM.process_move R (some E)
      (GM.reset_game R (GM.initState R) 5 10 0 ("white")).1 ("e2e4")).state.history.length = 1 ∧
    (GM.process_move R (some E)
      (GM.reset_game R (GM.initState R) 5 10 0 ("white")).1 ("e2e4")).spawned =
      some ((GM.reset_game R (GM.initState R) 5 10 0 ("white")).1.game_id) ∧
    ∃ s2 sent saved,
      GM.ai_move_task R (some E)
        ((GM.reset_game R (GM.initState R) 5 10 0 ("white")).1.game_id)
        ((GM.process_move R (some E)
          (GM.reset_game R (GM.initState R) 5 10 0 ("white")).1 ("e2e4")).state) =
        Except.ok (s2, sent, saved) ∧
      s2.history.length = 2 ∧ s2.turn = ("white") := by
  set s0 : GM.GMState P := (GM.reset_game R (GM.initState R) 5 10 0 ("white")).1 with hs0
  have hstat : s0.status = ("playing") := rfl
  have hb0 : s0.board = R.startPos := rfl
  have hd0 : s0.depth = 5 := rfl
  have hh0 : s0.history = [] := rfl
  have hstrip : stripStr ("e2e4") = ("e2e4") := by decide
  have hlow : lowerStr ("e2e4") = ("e2e4") := by decide
  have hres : GM.resolveMove R s0.board (stripStr ("e2e4")) = some m1 := by
    unfold GM.resolveMove
    rw [hstrip, hlow, h1]
  have hresL : GM.resolveLegal R s0.board (stripStr ("e2e4")) = some m1 := by
    unfold GM.resolveLegal
    rw [hres]
    simp [hf, hb0, hl]
  have hcm' : R.isCheckmate (GM.make_move R (some E) s0 m1 true).1.board = false := by
    rw [GM.make_move_board, hb0]
    exact hcm
  have hsm' : R.isStalemate (GM.make_move R (some E) s0 m1 true).1.board = false := by
    rw [GM.make_move_board, hb0]
    exact hsm
  have him' : R.isInsufficientMaterial (GM.make_move R (some E) s0 m1 true).1.board = false := by
    rw [GM.make_move_board, hb0]
    exact him
  have hcgo := GM.check_game_over_not_terminal R (GM.make_move R (some E) s0 m1 true).1
    hcm' hsm' him'
  have hpm : GM.process_move R (some E) s0 ("e2e4") =
      { outcome := ("ok"), state := (GM.make_move R (some E) s0 m1 true).1
        sent := (GM.make_move R (some E) s0 m1 true).2 ++ []
        saved := []
        spawned := some (GM.make_move R (some E) s0 m1 true).1.game_id } := by
    unfold GM.process_move
    rw [if_neg (by rw [hstat]; simp), hresL]
    simp only [hcgo, Bool.false_eq_true, reduceIte]
  have hgid1 : (GM.make_move R (some E) s0 m1 true).1.game_id = s0.game_id :=
    GM.make_move_game_id R (some E) s0 m1 true
  refine ⟨rfl, ?_, ?_, ?_, ?_⟩
  · rw [hpm]
  · rw [hpm]
    have := GM.make_move_history_len R (some E) s0 m1 true
    simp only [this, hh0]
    rfl
  · rw [hpm]
    simp only [hgid1]
  · rw [hpm]
    simp only []
    -- the spawned task now runs against the post-move state
    have hcheck1 : GM.ai_check1 s0.game_id (GM.make_move R (some E) s0 m1 true).1 =
        some (GM.update_lcd0 (GM.make_move R (some E) s0 m1 true).1 ("Thinking...")) := by
      unfold GM.ai_check1
      rw [if_neg]
      simp [hgid1, GM.make_move_status, hstat]
    have hplay' : E.play
        (GM.update_lcd0 (GM.make_move R (some E) s0 m1 true).1 ("Thinking...")).board
        (GM.update_lcd0 (GM.make_move R (some E) s0 m1 true).1 ("Thinking...")).depth =
        some m2 := by
      simp only [GM.update_lcd0]
      rw [GM.make_move_board, GM.make_move_depth, hb0, hd0]
      exact hplay
    have htask : GM.ai_move_task R (some E) s0.game_id (GM.make_move R (some E) s0 m1 true).1 =
        Except.ok (GM.ai_commit R (some E) s0.game_id (some m2)
          (GM.update_lcd0 (GM.make_move R (some E) s0 m1 true).1 ("Thinking..."))) := by
      unfold GM.ai_move_task
      rw [hcheck1]
      simp only []
      rw [hplay']
    set st1 := GM.update_lcd0 (GM.make_move R (some E) s0 m1 true).1 ("Thinking...") with hst1
    have hg : st1.game_id = s0.game_id := by
      rw [hst1]
      simp only [GM.update_lcd0]
      exact hgid1
    have hs : st1.status = ("playing") := by
      rw [hst1]
      simp only [GM.update_lcd0]
      rw [GM.make_move_status]
      exact hstat
    have hst1_hist : st1.history.length = 1 := by
      rw [hst1]
      simp only [GM.update_lcd0]
      rw [GM.make_move_history_len, hh0]
      rfl
    have hst1_board : st1.board = R.push R.startPos m1 := by
      rw [hst1]
      simp only [GM.update_lcd0]
      rw [GM.make_move_board, hb0]
    have hcommit := GM.ai_commit_commits R (some E) s0.game_id m2 st1 hg hs
    set st2 := GM.update_lcd0 st1 (("Last: ") ++ R.sanOf st1.board m2) with hst2
    have hst2_hist : st2.history.length = 1 := by
      rw [hst2]
      simp only [GM.update_lcd0]
      exact hst1_hist
    have hst2_board : st2.board = R.push R.startPos m1 := by
      rw [hst2]
      simp only [GM.update_lcd0]
      exact hst1_board
    have hcgf := GM.check_game_over_fields R (GM.make_move R (some E) st2 m2 false).1
    refine ⟨_, _, _, by rw [htask], ?_, ?_⟩
    · rw [hcommit, hcgf.2.2.2.1, GM.make_move_history_len, hst2_hist]
    · rw [hcommit, hcgf.2.2.1, GM.make_move_turn, hst2_board, ht2]
      rfl

/-- Witness for C3 at the small concrete rules instance T3R with engine T3E. -/
theorem C3_reset_then_e2e4_witness :
    (GM.process_move T3R (some T3E)
      (GM.reset_game T3R (GM.initState T3R) 5 10 0 ("white")).1 ("e2e4")).outcome = ("ok") ∧
    ∃ s2 sent saved,
      GM.ai_move_task T3R (some T3E)
        ((GM.reset_game T3R (GM.initState T3R) 5 10 0 ("white")).1.game_id)
        ((GM.process_move T3R (some T3E)
          (GM.reset_game T3R (GM.initState T3R) 5 10 0 ("white")).1 ("e2e4")).state) =
        Except.ok (s2, sent, saved) ∧
      s2.history.length = 2 ∧ s2.turn = ("white") := by
  have h := C3_reset_then_e2e4 T3R T3E 1 2 (by decide) (by decide) (by decide)
    (by decide) (by decide) (by decide) (by decide) (by decide)
  exact ⟨h.2.1, h.2.2.2.2⟩

end Claim3

section Claim5

variable {P M : Type} {α : Type}

theorem GM.firstMinBy_first_min (f : α → Nat) (x : α) (xs : List α) :
    ∃ m, GM.firstMinBy f (x :: xs) = some m ∧ m ∈ x :: xs ∧
      (∀ y ∈ x :: xs, f m ≤ f y) ∧
      ∃ l1 l2, x :: xs = l1 ++ m :: l2 ∧ ∀ y ∈ l1, f m < f y := by
  induction xs generalizing x with
  | nil =>
    refine ⟨x, rfl, List.mem_cons_self x [], ?_, [], [], rfl, by simp⟩
    intro y hy
    rw [List.mem_singleton] at hy
    rw [hy]
  | cons y ys ih =>
    have hstep : GM.firstMinBy f (x :: y :: ys) =
        GM.firstMinBy f ((if f y < f x then y else x) :: ys) := rfl
    by_cases hxy : f y < f x
    · obtain ⟨m, hm, hmem, hmin, l1, l2, hsplit, hpre⟩ := ih y
      have hmy : f m ≤ f y := hmin y (List.mem_cons_self y ys)
      refine ⟨m, ?_, List.mem_cons_of_mem x hmem, ?_, x :: l1, l2, ?_, ?_⟩
      · rw [hstep, if_pos hxy]
        exact hm
      · intro z hz
        rcases List.mem_cons.mp hz with hz | hz
        · rw [hz]
          exact le_of_lt (lt_of_le_of_lt hmy hxy)
        · exact hmin z hz
      · rw [List.cons_append, ← hsplit]
      · intro z hz
        rcases List.mem_cons.mp hz with hz | hz
        · rw [hz]
          exact lt_of_le_of_lt hmy hxy
        · exact hpre z hz
    · obtain ⟨m, hm, hmem, hmin, l1, l2, hsplit, hpre⟩ := ih x
      have hxle : f x ≤ f y := le_of_not_lt hxy
      have hmx : f m ≤ f x := hmin x (List.mem_cons_self x ys)
      have hmem' : m ∈ x :: y :: ys := by
        rcases List.mem_cons.mp hmem with hz | hz
        · rw [hz]
          exact List.mem_cons_self x (y :: ys)
        · exact List.mem_cons_of_mem x (List.mem_cons_of_mem y hz)
      have hmin' : ∀ z ∈ x :: y :: ys, f m ≤ f z := by
        intro z hz
        rcases List.mem_cons.mp hz with hz | hz
        · rw [hz]
          exact hmx
        · rcases List.mem_cons.mp hz with hz | hz
          · rw [hz]
            exact le_trans hmx hxle
          · exact hmin z (List.mem_cons_of_mem x hz)
      refine ⟨m, ?_, hmem', hmin', ?_⟩
      · rw [hstep, if_neg hxy]
        exact hm
      · cases l1 with
        | nil =>
          rw [List.nil_append] at hsplit
          have hmxx : m = x := (List.cons.injEq m l2 x ys).mp hsplit.symm |>.1
          refine ⟨[], y :: ys, ?_, by simp⟩
          rw [List.nil_append, hmxx]
        | cons a l1' =>
          rw [List.cons_append] at hsplit
          have hax : a = x := ((List.cons.injEq x ys a (l1' ++ m :: l2)).mp hsplit).1.symm
          have hys : ys = l1' ++ m :: l2 := ((List.cons.injEq x ys a (l1' ++ m :: l2)).mp hsplit).2
          have hfmx : f m < f x := by
            have := hpre a (List.mem_cons_self a l1')
            rw [hax] at this
            exact this
          refine ⟨x :: y :: l1', l2, ?_, ?_⟩
          · rw [List.cons_append, List.cons_append, ← hys]
          · intro z hz
            rcases List.mem_cons.mp hz with hz | hz
            · rw [hz]
              exact hfmx
            · rcases List.mem_cons.mp hz with hz | hz
              · rw [hz]
                exact lt_of_lt_of_le hfmx hxle
              · exact hpre z (List.mem_cons_of_mem a hz)

/-- C5 counterexample: at the concrete position two legal moves target e4 —
move 1 by a knight (priority 3) and move 2 by a pawn (priority 1) — and
process_move applied to the destination-only text e4 commits the pawn's move,
not the knight's: the source sorts the candidates by ascending piece value
(reverse=False) and takes element 0, so the claim's highest-priority choice
(the knight) is refuted. -/
theorem C5_lowest_priority_counterexample :
    T5R.legalMoves q5s.board = [1, 2] ∧
    T5R.toSquare 1 = 28 ∧ T5R.toSquare 2 = 28 ∧
    T5R.pieceAt q5s.board (T5R.fromSquare 1) =
      some { ptype := PieceType.knight, white := true } ∧
    T5R.pieceAt q5s.board (T5R.fromSquare 2) =
      some { ptype := PieceType.pawn, white := true } ∧
    (GM.process_move T5R none q5s ("e4")).state.last_move = some (T5R.uciOf 2) ∧
    ¬ ((GM.process_move T5R none q5s ("e4")).state.last_move = some (T5R.uciOf 1)) := by
  decide

/-- C5 amended: when the text names only a destination square and several
legal moves target it, process_move resolves it to the candidate whose moving
piece has the LOWEST piece-value priority — the first element of the
ascending stable sort (Pawn 1 < Bishop 2 < Knight 3 < Rook 4 < Queen 5 <
King 6), ties broken by encounter order — and commits that move; so with a
knight move and a pawn move both targeting e4, the pawn's move is chosen. -/
theorem C5_destination_resolution_amended [DecidableEq M] (R : Rules P M)
    (eng : Option (Eng P M)) (s : GM.GMState P) (str : String) (sq : Nat)
    (c : M) (cs : List M)
    (hst : s.status = ("playing"))
    (hu : R.fromUci (lowerStr (stripStr str)) = none)
    (hsan : R.parseSan s.board (stripStr str) = none)
    (hlen : (stripStr str).length = 2)
    (hsq : R.parseSquare (lowerStr (stripStr str)) = some sq)
    (hfil : (R.legalMoves s.board).filter (fun m => R.toSquare m = sq) = c :: cs)
    (hnf : ∀ m : M, R.moveFalsy m = false) :
    ∃ m, GM.firstMinBy (GM.getPriority R s.board) (c :: cs) = some m ∧
      m ∈ c :: cs ∧
      (∀ y ∈ c :: cs, GM.getPriority R s.board m ≤ GM.getPriority R s.board y) ∧
      (∃ l1 l2, c :: cs = l1 ++ m :: l2 ∧
        ∀ y ∈ l1, GM.getPriority R s.board m < GM.getPriority R s.board y) ∧
      (GM.process_move R eng s str).state.last_move = some (R.uciOf m) ∧
      (GM.process_move R eng s str).state.history.length = s.history.length + 1 := by
  obtain ⟨m, hm, hmem, hmin, hsplit⟩ := GM.firstMinBy_first_min (GM.getPriority R s.board) c cs
  have hres : GM.resolveMove R s.board (stripStr str) = some m := by
    unfold GM.resolveMove
    simp only [hu, hsan, hlen, hsq, reduceIte]
    rw [hfil]
    exact hm
  have hlegal : m ∈ R.legalMoves s.board := by
    have : m ∈ (R.legalMoves s.board).filter (fun x => R.toSquare x = sq) := by
      rw [hfil]
      exact hmem
    exact (List.mem_filter.mp this).1
  have hresL : GM.resolveLegal R s.board (stripStr str) = some m := by
    unfold GM.resolveLegal
    rw [hres]
    simp [hnf m, hlegal]
  refine ⟨m, hm, hmem, hmin, hsplit, ?_, ?_⟩
  · unfold GM.process_move
    rw [if_neg (by rw [hst]; simp), hresL]
    have hcgf := GM.check_game_over_fields R (GM.make_move R eng s m true).1
    by_cases hterm : (GM.check_game_over R (GM.make_move R eng s m true).1).2.2.2 = true <;>
      simp only [hterm, reduceIte, Bool.false_eq_true, if_false, if_true] <;>
      · rw [hcgf.2.2.2.2.1, GM.make_move_last_move]
  · unfold GM.process_move
    rw [if_neg (by rw [hst]; simp), hresL]
    have hcgf := GM.check_game_over_fields R (GM.make_move R eng s m true).1
    by_cases hterm : (GM.check_game_over R (GM.make_move R eng s m true).1).2.2.2 = true <;>
      simp only [hterm, reduceIte, Bool.false_eq_true, if_false, if_true] <;>
      · rw [hcgf.2.2.2.1, GM.make_move_history_len]

/-- Witness for C5 amended at the concrete two-candidate position: the pawn's
move (number 2, priority 1) is selected and committed. -/
theorem C5_destination_resolution_amended_witness :
    ∃ m, GM.firstMinBy (GM.getPriority T5R q5s.board) (1 :: [2]) = some m ∧
      m ∈ 1 :: [2] ∧
      (∀ y ∈ 1 :: [2], GM.getPriority T5R q5s.board m ≤ GM.getPriority T5R q5s.board y) ∧
      (∃ l1 l2, 1 :: [2] = l1 ++ m :: l2 ∧
        ∀ y ∈ l1, GM.getPriority T5R q5s.board m < GM.getPriority T5R q5s.board y) ∧
      (GM.process_move T5R none q5s ("e4")).state.last_move = some (T5R.uciOf m) ∧
      (GM.process_move T5R none q5s ("e4")).state.history.length =
        q5s.history.length + 1 :=
  C5_destination_resolution_amended T5R none q5s ("e4") 28 1 [2] (by decide) (by decide)
    (by decide) (by decide) (by decide) (by decide) (fun m => rfl)

end Claim5

section Claim2

variable {P M : Type}

theorem GM.gm_tick_not_playing (s : GM.GMState P) (h : s.status ≠ ("playing")) :
    GM.timer_tick s = (s, [], []) := by
  unfold GM.timer_tick
  rw [if_pos h]

theorem GM.gm_tick_white_dec (s : GM.GMState P) (h : s.status = ("playing"))
    (ht : s.turn = ("white")) (hpos : 0 < s.timer_white) (hne : ¬(s.timer_white - 1 = 0)) :
    (GM.timer_tick s).1.timer_white = s.timer_white - 1 ∧
    (GM.timer_tick s).1.timer_black = s.timer_black ∧
    (GM.timer_tick s).1.status = ("playing") ∧
    (GM.timer_tick s).2.2 = [] := by
  refine ⟨?_, ?_, ?_, ?_⟩ <;>
    simp only [GM.timer_tick, h, ht, hpos, hne, ne_eq, String.reduceEq, not_true,
      reduceIte, and_true, true_and, if_true, if_false, not_false_eq_true]

theorem GM.gm_tick_white_timeout (s : GM.GMState P) (h : s.status = ("playing"))
    (ht : s.turn = ("white")) (hpos : 0 < s.timer_white) (hz : s.timer_white - 1 = 0) :
    (GM.timer_tick s).1.timer_white = s.timer_white - 1 ∧
    (GM.timer_tick s).1.timer_black = s.timer_black ∧
    (GM.timer_tick s).1.status = ("game_over") ∧
    ("CHECKMATE:BLACK") ∈ (GM.timer_tick s).2.1 ∧
    ((GM.timer_tick s).2.2).map DbRec.result = [("Black Wins (Time)")] := by
  refine ⟨?_, ?_, ?_, ?_, ?_⟩ <;>
    simp only [GM.timer_tick, GM.timeout_trans, GM.update_lcd0, GM.update_lcd1, GM.save_rec,
      h, ht, hpos, hz, ne_eq, String.reduceEq, not_true, reduceIte, and_true, true_and,
      if_true, if_false, List.map_cons, List.map_nil, List.singleton_append,
      List.mem_cons, List.mem_singleton]
  · exact Or.inl (by decide)
  · decide

theorem GM.gm_tick_white_floor (s : GM.GMState P) (h : s.status = ("playing"))
    (ht : s.turn = ("white")) (hpos : ¬(0 < s.timer_white)) :
    (GM.timer_tick s).1.timer_white = s.timer_white ∧
    (GM.timer_tick s).1.timer_black = s.timer_black := by
  constructor <;>
    simp only [GM.timer_tick, h, ht, hpos, ne_eq, String.reduceEq, not_true, reduceIte,
      and_true, true_and, and_false, false_and, if_true, if_false]

theorem GM.gm_tick_black_dec (s : GM.GMState P) (h : s.status = ("playing"))
    (ht : s.turn = ("black")) (hpos : 0 < s.timer_black) (hne : ¬(s.timer_black - 1 = 0)) :
    (GM.timer_tick s).1.timer_black = s.timer_black - 1 ∧
    (GM.timer_tick s).1.timer_white = s.timer_white ∧
    (GM.timer_tick s).1.status = ("playing") ∧
    (GM.timer_tick s).2.2 = [] := by
  refine ⟨?_, ?_, ?_, ?_⟩ <;>
    simp only [GM.timer_tick, h, ht, hpos, hne, ne_eq, String.reduceEq, not_true,
      reduceIte, and_true, true_and, and_false, false_and, if_true, if_false,
      not_false_eq_true]

theorem GM.gm_tick_black_timeout (s : GM.GMState P) (h : s.status = ("playing"))
    (ht : s.turn = ("black")) (hpos : 0 < s.timer_black) (hz : s.timer_black - 1 = 0) :
    (GM.timer_tick s).1.timer_black = s.timer_black - 1 ∧
    (GM.timer_tick s).1.timer_white = s.timer_white ∧
    (GM.timer_tick s).1.status = ("game_over") ∧
    ("CHECKMATE:WHITE") ∈ (GM.timer_tick s).2.1 ∧
    ((GM.timer_tick s).2.2).map DbRec.result = [("White Wins (Time)")] := by
  refine ⟨?_, ?_, ?_, ?_, ?_⟩ <;>
    simp only [GM.timer_tick, GM.timeout_trans, GM.update_lcd0, GM.update_lcd1, GM.save_rec,
      h, ht, hpos, hz, ne_eq, String.reduceEq, not_true, reduceIte, and_true, true_and,
      and_false, false_and, if_true, if_false, List.map_cons, List.map_nil,
      List.singleton_append, List.mem_cons, List.mem_singleton]
  · exact Or.inl (by decide)
  · decide

theorem GM.gm_tick_black_floor (s : GM.GMState P) (h : s.status = ("playing"))
    (ht : s.turn = ("black")) (hpos : ¬(0 < s.timer_black)) :
    (GM.timer_tick s).1.timer_white = s.timer_white ∧
    (GM.timer_tick s).1.timer_black = s.timer_black := by
  constructor <;>
    simp only [GM.timer_tick, h, ht, hpos, ne_eq, String.reduceEq, not_true, reduceIte,
      and_true, true_and, and_false, false_and, if_true, if_false]

theorem GM.tick_other_turn (s : GM.GMState P) (h : s.status = ("playing"))
    (htw : s.turn ≠ ("white")) (htb : s.turn ≠ ("black")) :
    (GM.timer_tick s).1.timer_white = s.timer_white ∧
    (GM.timer_tick s).1.timer_black = s.timer_black := by
  constructor <;>
    simp only [GM.timer_tick, h, htw, htb, ne_eq, String.reduceEq, not_true, reduceIte,
      and_true, true_and, and_false, false_and, if_true, if_false, not_false_eq_true]

theorem GM.tick_timers_nonneg (s : GM.GMState P) (hw : 0 ≤ s.timer_white)
    (hb : 0 ≤ s.timer_black) :
    0 ≤ (GM.timer_tick s).1.timer_white ∧ 0 ≤ (GM.timer_tick s).1.timer_black := by
  by_cases h : s.status ≠ ("playing")
  · rw [GM.gm_tick_not_playing s h]
    exact ⟨hw, hb⟩
  · have h' : s.status = ("playing") := by simpa using h
    by_cases ht : s.turn = ("white")
    · by_cases hpos : 0 < s.timer_white
      · by_cases hz : s.timer_white - 1 = 0
        · have hh := GM.gm_tick_white_timeout s h' ht hpos hz
          rw [hh.1, hh.2.1]
          omega
        · have hh := GM.gm_tick_white_dec s h' ht hpos hz
          rw [hh.1, hh.2.1]
          omega
      · have hh := GM.gm_tick_white_floor s h' ht hpos
        rw [hh.1, hh.2]
        exact ⟨hw, hb⟩
    · by_cases htb : s.turn = ("black")
      · by_cases hpos : 0 < s.timer_black
        · by_cases hz : s.timer_black - 1 = 0
          · have hh := GM.gm_tick_black_timeout s h' htb hpos hz
            rw [hh.1, hh.2.1]
            omega
          · have hh := GM.gm_tick_black_dec s h' htb hpos hz
            rw [hh.1, hh.2.1]
            omega
        · have hh := GM.gm_tick_black_floor s h' htb hpos
          rw [hh.1, hh.2]
          exact ⟨hw, hb⟩
      · have hh := GM.tick_other_turn s h' ht htb
        rw [hh.1, hh.2]
        exact ⟨hw, hb⟩

theorem GM.process_move_timers [DecidableEq M] (R : Rules P M) (eng : Option (Eng P M))
    (s : GM.GMState P) (str : String) :
    s.timer_white ≤ (GM.process_move R eng s str).state.timer_white ∧
    s.timer_black ≤ (GM.process_move R eng s str).state.timer_black := by
  unfold GM.process_move
  by_cases hs : s.status ≠ ("playing")
  · rw [if_pos hs]
    exact ⟨le_refl _, le_refl _⟩
  · rw [if_neg hs]
    rcases hm : GM.resolveLegal R s.board (stripStr str) with _ | m
    · simp only [hm]
      exact ⟨le_refl _, le_refl _⟩
    · simp only [hm]
      have h1 := GM.make_move_timers R eng s m true
      have h2 := GM.check_game_over_fields R (GM.make_move R eng s m true).1
      by_cases hterm : (GM.check_game_over R (GM.make_move R eng s m true).1).2.2.2 = true <;>
        simp only [hterm, reduceIte, Bool.false_eq_true, if_false, if_true] <;>
        exact ⟨by rw [h2.2.2.2.2.2.1]; exact h1.1, by rw [h2.2.2.2.2.2.2]; exact h1.2⟩

theorem GM.ai_commit_timers [DecidableEq M] (R : Rules P M) (eng : Option (Eng P M))
    (gid : Nat) (mv : Option M) (s : GM.GMState P) :
    s.timer_white ≤ (GM.ai_commit R eng gid mv s).1.timer_white ∧
    s.timer_black ≤ (GM.ai_commit R eng gid mv s).1.timer_black := by
  unfold GM.ai_commit
  by_cases hg : s.game_id ≠ gid ∨ s.status ≠ ("playing")
  · rw [if_pos hg]
    exact ⟨le_refl _, le_refl _⟩
  · rw [if_neg hg]
    cases mv with
    | none => exact ⟨le_refl _, le_refl _⟩
    | some m =>
      show s.timer_white ≤ (GM.check_game_over R (GM.make_move R eng
          (GM.update_lcd0 s (("Last: ") ++ R.sanOf s.board m)) m false).1).1.timer_white ∧
        s.timer_black ≤ (GM.check_game_over R (GM.make_move R eng
          (GM.update_lcd0 s (("Last: ") ++ R.sanOf s.board m)) m false).1).1.timer_black
      have h1 := GM.make_move_timers R eng
        (GM.update_lcd0 s (("Last: ") ++ R.sanOf s.board m)) m false
      have h2 := GM.check_game_over_fields R (GM.make_move R eng
        (GM.update_lcd0 s (("Last: ") ++ R.sanOf s.board m)) m false).1
      rw [h2.2.2.2.2.2.1, h2.2.2.2.2.2.2]
      exact ⟨h1.1, h1.2⟩

theorem GM.hint_phase2_timers (R : Rules P M) (eng : Option (Eng P M)) (bc : P)
    (s : GM.GMState P) :
    (GM.hint_phase2 R eng bc s).1.timer_white = s.timer_white ∧
    (GM.hint_phase2 R eng bc s).1.timer_black = s.timer_black := by
  cases eng with
  | none => exact ⟨rfl, rfl⟩
  | some e =>
    rcases hp : e.play bc s.depth with _ | m <;>
      simp [GM.hint_phase2, hp, GM.update_lcd0]

theorem GM.resign_timers (s : GM.GMState P) :
    (GM.resign s).1.timer_white = s.timer_white ∧
    (GM.resign s).1.timer_black = s.timer_black := by
  unfold GM.resign GM.update_lcd0 GM.update_lcd1
  split_ifs <;> exact ⟨rfl, rfl⟩

theorem GM.draw_timers (s : GM.GMState P) :
    (GM.draw s).1.timer_white = s.timer_white ∧
    (GM.draw s).1.timer_black = s.timer_black := by
  unfold GM.draw GM.update_lcd0 GM.update_lcd1
  split_ifs <;> exact ⟨rfl, rfl⟩

theorem GM.ai_check1_timers (gid : Nat) (s : GM.GMState P) :
    ((GM.ai_check1 gid s).getD s).timer_white = s.timer_white ∧
    ((GM.ai_check1 gid s).getD s).timer_black = s.timer_black := by
  unfold GM.ai_check1
  split_ifs <;> simp [GM.update_lcd0]

theorem GM.reach_timers_nonneg [DecidableEq M] (R : Rules P M) (eng : Option (Eng P M))
    (s : GM.GMState P) (h : GM.Reach R eng s) :
    0 ≤ s.timer_white ∧ 0 ≤ s.timer_black := by
  induction h with
  | init => exact ⟨by norm_num [GM.initState], by norm_num [GM.initState]⟩
  | reset s d mins inc pc hr hm ih =>
    exact ⟨mul_nonneg hm (by norm_num), mul_nonneg hm (by norm_num)⟩
  | move s str hr ih =>
    have hmono := GM.process_move_timers R eng s str
    exact ⟨le_trans ih.1 hmono.1, le_trans ih.2 hmono.2⟩
  | tick s hr ih => exact GM.tick_timers_nonneg s ih.1 ih.2
  | aiPhase1 s gid hr ih =>
    have heq := GM.ai_check1_timers gid s
    rw [heq.1, heq.2]
    exact ih
  | aiPhase2 s gid mv hr ih =>
    have hmono := GM.ai_commit_timers R eng gid mv s
    exact ⟨le_trans ih.1 hmono.1, le_trans ih.2 hmono.2⟩
  | hintPhase2 s bc hr ih =>
    have heq := GM.hint_phase2_timers R eng bc s
    rw [heq.1, heq.2]
    exact ih
  | resignStep s hr ih =>
    have heq := GM.resign_timers s
    rw [heq.1, heq.2]
    exact ih
  | drawStep s hr ih =>
    have heq := GM.draw_timers s
    rw [heq.1, heq.2]
    exact ih
  | depthStep s d hr ih => exact ih

/-- C2: in every state of the GameManager session reachable from process
start through its operations (with the START command's timer-minutes field
non-negative, as the protocol intends), both clocks are non-negative; a clock
tick while Playing decrements only the active side's clock by one second and
is floored at zero (a zero clock is left untouched); and the decrement that
reaches zero deterministically ends the game: status becomes game_over, a
CHECKMATE line naming the opposite side as winner is sent, and exactly one
record whose result text is the opposite side's timeout win is persisted. -/
theorem C2_clock_invariant_and_timeout [DecidableEq M] (R : Rules P M)
    (eng : Option (Eng P M)) :
    (∀ s : GM.GMState P, GM.Reach R eng s → 0 ≤ s.timer_white ∧ 0 ≤ s.timer_black) ∧
    (∀ s : GM.GMState P, s.status = ("playing") → s.turn = ("white") → 0 < s.timer_white →
      (GM.timer_tick s).1.timer_white = s.timer_white - 1 ∧
      (GM.timer_tick s).1.timer_black = s.timer_black ∧
      (s.timer_white = 1 →
        (GM.timer_tick s).1.status = ("game_over") ∧
        ("CHECKMATE:BLACK") ∈ (GM.timer_tick s).2.1 ∧
        ((GM.timer_tick s).2.2).map DbRec.result = [("Black Wins (Time)")]) ∧
      (s.timer_white ≠ 1 →
        (GM.timer_tick s).1.status = ("playing") ∧ (GM.timer_tick s).2.2 = [])) ∧
    (∀ s : GM.GMState P, s.status = ("playing") → s.turn = ("white") → s.timer_white = 0 →
      (GM.timer_tick s).1.timer_white = s.timer_white ∧
      (GM.timer_tick s).1.timer_black = s.timer_black) ∧
    (∀ s : GM.GMState P, s.status = ("playing") → s.turn = ("black") → 0 < s.timer_black →
      (GM.timer_tick s).1.timer_black = s.timer_black - 1 ∧
      (GM.timer_tick s).1.timer_white = s.timer_white ∧
      (s.timer_black = 1 →
        (GM.timer_tick s).1.status = ("game_over") ∧
        ("CHECKMATE:WHITE") ∈ (GM.timer_tick s).2.1 ∧
        ((GM.timer_tick s).2.2).map DbRec.result = [("White Wins (Time)")]) ∧
      (s.timer_black ≠ 1 →
        (GM.timer_tick s).1.status = ("playing") ∧ (GM.timer_tick s).2.2 = [])) ∧
    (∀ s : GM.GMState P, s.status = ("playing") → s.turn = ("black") → s.timer_black = 0 →
      (GM.timer_tick s).1.timer_white = s.timer_white ∧
      (GM.timer_tick s).1.timer_black = s.timer_black) := by
  refine ⟨fun s h => GM.reach_timers_nonneg R eng s h, ?_, ?_, ?_, ?_⟩
  · intro s h ht hpos
    by_cases hz : s.timer_white - 1 = 0
    · have hh := GM.gm_tick_white_timeout s h ht hpos hz
      refine ⟨hh.1, hh.2.1, fun _ => ⟨hh.2.2.1, hh.2.2.2.1, hh.2.2.2.2⟩, fun hne => ?_⟩
      exact absurd (by omega : s.timer_white = 1) hne
    · have hh := GM.gm_tick_white_dec s h ht hpos hz
      refine ⟨hh.1, hh.2.1, fun h1 => absurd (by omega : s.timer_white - 1 = 0) hz,
        fun _ => ⟨hh.2.2.1, hh.2.2.2⟩⟩
  · intro s h ht hz
    exact GM.gm_tick_white_floor s h ht (by omega)
  · intro s h ht hpos
    by_cases hz : s.timer_black - 1 = 0
    · have hh := GM.gm_tick_black_timeout s h ht hpos hz
      refine ⟨hh.1, hh.2.1, fun _ => ⟨hh.2.2.1, hh.2.2.2.1, hh.2.2.2.2⟩, fun hne => ?_⟩
      exact absurd (by omega : s.timer_black = 1) hne
    · have hh := GM.gm_tick_black_dec s h ht hpos hz
      refine ⟨hh.1, hh.2.1, fun h1 => absurd (by omega : s.timer_black - 1 = 0) hz,
        fun _ => ⟨hh.2.2.1, hh.2.2.2⟩⟩
  · intro s h ht hz
    have hh := GM.gm_tick_black_floor s h ht (by omega)
    exact ⟨hh.1, hh.2⟩

/-- Witness for C2: process start is reachable with both clocks at 600, and a
tick against a fresh running session decrements White's clock to 599 while
leaving Black's untouched. -/
theorem C2_clock_invariant_and_timeout_witness :
    (0 ≤ (GM.initState trivRules).timer_white ∧ 0 ≤ (GM.initState trivRules).timer_black) ∧
    (GM.timer_tick trivPlaying).1.timer_white = trivPlaying.timer_white - 1 ∧
    (GM.timer_tick trivPlaying).1.timer_black = trivPlaying.timer_black :=
  ⟨(C2_clock_invariant_and_timeout trivRules none).1 (GM.initState trivRules) GM.Reach.init,
    ((C2_clock_invariant_and_timeout trivRules none).2.1 trivPlaying (by decide) (by decide)
      (by decide)).1,
    ((C2_clock_invariant_and_timeout trivRules none).2.1 trivPlaying (by decide) (by decide)
      (by decide)).2.1⟩

end Claim2

end ChessBotArena
